import Mathlib

/-!
Verification of the generation-retry-validation core of the H1-Book-Q4
textbook generator.

The development shallowly embeds, in Lean, the content validator
(`agents/content_generator/validator.py`), the per-kind generation loops
(`chapter_generator.py`, `summary_generator.py`, `quiz_generator.py`,
`booster_generator.py`), the LLM client retry loop (`llm_client.py`) and
the batch orchestrator (`backend/src/services/generation_service.py`).
External effects (the Anthropic API, `json.loads`, the database session,
sleeps) are modelled as explicit oracle inputs: each network call's outcome
is one element of an input list, and the mutable job row is threaded as an
explicit state value.
-/

namespace BookGen

/-- Embeds `ValidationResult` from `validator.py`: `valid`, ordered error and
warning message lists, and a metrics map (all metric values produced by the
source are integers, so the map is modelled as an association list into `Int`). -/
structure ValidationResult where
  valid : Bool
  errors : List String
  warnings : List String
  metrics : List (String × Int)
deriving Repr, DecidableEq

/-- Python's `not s.strip()` emptiness test: true iff every character of the
string is whitespace (equivalently, `s.strip() == ""`). Defined over the
character list so the kernel can evaluate it. -/
def isBlank (s : String) : Bool := s.data.all Char.isWhitespace

/-- Per-takeaway checks of `ContentValidator.validate_summary` (the body of its
`for i, takeaway in enumerate(takeaways, start=1)` loop): length check
(error below 50 chars, warning above 150) followed by the emptiness check.
Returns (errors, warnings) contributed by takeaway `i`. -/
def takeawayChecks (i : Nat) (t : String) : List String × List String :=
  let lengthErrors :=
    if t.length < 50 then
      ["Takeaway " ++ toString i ++ " too short: " ++ toString t.length ++ " chars (minimum 50)"]
    else []
  let lengthWarnings :=
    if t.length < 50 then []
    else if 150 < t.length then
      ["Takeaway " ++ toString i ++ " too long: " ++ toString t.length ++ " chars (recommended max 150)"]
    else []
  let emptyErrors := if isBlank t then ["Takeaway " ++ toString i ++ " is empty"] else []
  (lengthErrors ++ emptyErrors, lengthWarnings)

/-- The leading count check of `ContentValidator.validate_summary`. -/
def summaryCountErrors (n min_count max_count : Nat) : List String :=
  if n < min_count then
    ["Too few takeaways: " ++ toString n ++ " (minimum " ++ toString min_count ++ ")"]
  else if max_count < n then
    ["Too many takeaways: " ++ toString n ++ " (maximum " ++ toString max_count ++ ")"]
  else []

/-- Embeds `ContentValidator.validate_summary`: the count check, then a loop
over the takeaways accumulating per-takeaway errors and warnings. -/
def validate_summary (takeaways : List String) (min_count : Nat) (max_count : Nat) :
    ValidationResult :=
  let countErrors := summaryCountErrors takeaways.length min_count max_count
  let acc := (takeaways.enumFrom 1).foldl
    (fun acc p => (acc.1 ++ (takeawayChecks p.1 p.2).1, acc.2 ++ (takeawayChecks p.1 p.2).2))
    ([], [])
  { valid := (countErrors ++ acc.1).isEmpty
    errors := countErrors ++ acc.1
    warnings := acc.2
    metrics := [("takeaway_count", (takeaways.length : Int))] }

/-- A quiz question as consumed by `ContentValidator.validate_quiz`: a Python
dict whose documented keys are `question_text : str`, `options : List[str]`,
`correct_index : int` and optionally `difficulty : str`. A key that may be
absent is an `Option` field (`none` = key not in the dict). -/
structure QuizQuestion where
  question_text : Option String
  options : Option (List String)
  correct_index : Option Int
  difficulty : Option String
deriving Repr, DecidableEq

/-- Per-question checks of `ContentValidator.validate_quiz` (the body of its
`for i, question in enumerate(questions, start=1)` loop). A missing required
field appends its error and hits `continue`, skipping the rest of the
iteration; otherwise the option-count, index-range, empty-text, empty-option
and difficulty checks all run. Returns (errors, warnings) for question `i`. -/
def questionChecks (i : Nat) (q : QuizQuestion) : List String × List String :=
  match q.question_text with
  | none => (["Question " ++ toString i ++ ": missing 'question_text' field"], [])
  | some qt =>
    match q.options with
    | none => (["Question " ++ toString i ++ ": missing 'options' field"], [])
    | some opts =>
      match q.correct_index with
      | none => (["Question " ++ toString i ++ ": missing 'correct_index' field"], [])
      | some ci =>
        let optionCountErrors :=
          if opts.length ≠ 4 then
            ["Question " ++ toString i ++ ": must have exactly 4 options (got " ++ toString opts.length ++ ")"]
          else []
        let indexErrors :=
          if ¬ (0 ≤ ci ∧ ci ≤ 3) then
            ["Question " ++ toString i ++ ": correct_index must be 0-3 (got " ++ toString ci ++ ")"]
          else []
        let emptyTextErrors :=
          if isBlank qt then ["Question " ++ toString i ++ ": question_text is empty"] else []
        let emptyOptionErrors :=
          (opts.enum.filter (fun p => isBlank p.2)).map
            (fun p => "Question " ++ toString i ++ ", option " ++ toString p.1 ++ ": option is empty")
        let difficultyWarnings :=
          match q.difficulty with
          | none => []
          | some d =>
            if d ≠ "easy" ∧ d ≠ "medium" ∧ d ≠ "hard" then
              ["Question " ++ toString i ++ ": invalid difficulty '" ++ d ++
               "' (valid: ['easy', 'medium', 'hard'])"]
            else []
        (optionCountErrors ++ indexErrors ++ emptyTextErrors ++ emptyOptionErrors,
         difficultyWarnings)

/-- The leading count check of `ContentValidator.validate_quiz`. The full
`validate_quiz` below embeds the question-count check, the per-question
loop, and the duplicate-question-text warning
(`len(texts) != len(set(texts))`, with a missing `question_text` read as `""`
via `q.get("question_text", "")`). -/
def quizCountErrors (n min_questions max_questions : Nat) : List String :=
  if n < min_questions then
    ["Too few questions: " ++ toString n ++ " (minimum " ++ toString min_questions ++ ")"]
  else if max_questions < n then
    ["Too many questions: " ++ toString n ++ " (maximum " ++ toString max_questions ++ ")"]
  else []

/-- Embeds `ContentValidator.validate_quiz`: see the doc comment above. -/
def validate_quiz (questions : List QuizQuestion) (min_questions : Nat) (max_questions : Nat) :
    ValidationResult :=
  let countErrors := quizCountErrors questions.length min_questions max_questions
  let acc := (questions.enumFrom 1).foldl
    (fun acc p => (acc.1 ++ (questionChecks p.1 p.2).1, acc.2 ++ (questionChecks p.1 p.2).2))
    ([], [])
  let questionTexts := questions.map (fun q => q.question_text.getD "")
  let duplicateWarnings :=
    if questionTexts.length ≠ questionTexts.dedup.length then ["Duplicate questions detected"]
    else []
  { valid := (countErrors ++ acc.1).isEmpty
    errors := countErrors ++ acc.1
    warnings := acc.2 ++ duplicateWarnings
    metrics := [("question_count", (questions.length : Int))] }

/-- Embeds `ContentValidator.validate_learning_booster`: content-length check,
booster-type check, emptiness check, aggregated in source order. -/
def validate_learning_booster (content : String) (booster_type : String)
    (min_length : Nat) (max_length : Nat) : ValidationResult :=
  let lengthErrors :=
    if content.length < min_length then
      ["Booster too short: " ++ toString content.length ++ " chars (minimum " ++ toString min_length ++ ")"]
    else if max_length < content.length then
      ["Booster too long: " ++ toString content.length ++ " chars (maximum " ++ toString max_length ++ ")"]
    else []
  let typeErrors :=
    if booster_type ≠ "analogy" ∧ booster_type ≠ "example" ∧ booster_type ≠ "explanation" then
      ["Invalid booster type: '" ++ booster_type ++ "' (valid: ['analogy', 'example', 'explanation'])"]
    else []
  let emptyErrors := if isBlank content then ["Booster content is empty"] else []
  { valid := (lengthErrors ++ typeErrors ++ emptyErrors).isEmpty
    errors := lengthErrors ++ typeErrors ++ emptyErrors
    warnings := []
    metrics := [("content_length", (content.length : Int))] }

/-! ### Chapter validator: word counting over markdown -/

/-- Splits a character list at the first occurrence of three consecutive
backticks, returning the part before and the part after the three backticks. -/
def splitAtFence : List Char → Option (List Char × List Char)
  | [] => none
  | c :: cs =>
    if c = '`' ∧ cs.take 2 = ['`', '`'] then some ([], cs.drop 2)
    else
      match splitAtFence cs with
      | some (b, a) => some (c :: b, a)
      | none => none

/-- One fuel-indexed pass of fenced-code-block removal: drop the leftmost
`three backticks … three backticks` span (shortest span, as the non-greedy
regex does) and continue after it; if no opening or no closing fence remains,
the rest is left unchanged. -/
def stripFencedGo : Nat → List Char → List Char
  | 0, cs => cs
  | fuel + 1, cs =>
    match splitAtFence cs with
    | none => cs
    | some (before, after) =>
      match splitAtFence after with
      | none => cs
      | some (_, rest) => before ++ stripFencedGo fuel rest

/-- Embeds the first substitution of `ContentValidator._count_words`
(stripping fenced code blocks). Each removal consumes at least six
characters, so fuel equal to the length suffices. -/
def stripFenced (cs : List Char) : List Char := stripFencedGo cs.length cs

/-- Splits a character list at the first backtick, returning the part before
and the part after it. -/
def splitAtTick : List Char → Option (List Char × List Char)
  | [] => none
  | c :: cs =>
    if c = '`' then some ([], cs)
    else
      match splitAtTick cs with
      | some (b, a) => some (c :: b, a)
      | none => none

/-- One fuel-indexed pass of inline-code removal, embedding the second
substitution of `ContentValidator._count_words`: a backtick, one or more
non-backtick characters, then a backtick, removed leftmost-first; two
adjacent backticks do not match (the middle must be non-empty). -/
def stripInlineGo : Nat → List Char → List Char
  | 0, cs => cs
  | _ + 1, [] => []
  | fuel + 1, c :: cs =>
    if c = '`' then
      match splitAtTick cs with
      | some (middle, rest) =>
        if middle.isEmpty then c :: stripInlineGo fuel cs
        else stripInlineGo fuel rest
      | none => c :: cs
    else c :: stripInlineGo fuel cs

/-- Inline-code removal with sufficient fuel (each step consumes at least one
character). -/
def stripInline (cs : List Char) : List Char := stripInlineGo cs.length cs

/-- The markdown punctuation characters removed by
`ContentValidator._count_words` (`re.sub(r"[#*_\[\]()!]", "", …)`). -/
def isMdSpecial (c : Char) : Bool :=
  c = '#' ∨ c = '*' ∨ c = '_' ∨ c = '[' ∨ c = ']' ∨ c = '(' ∨ c = ')' ∨ c = '!'

/-- Counts maximal whitespace-separated tokens, i.e. `len(s.split())`. The
boolean records whether the previous character was inside a word. -/
def countTokensGo : List Char → Bool → Nat
  | [], _ => 0
  | c :: cs, inWord =>
    if c.isWhitespace then countTokensGo cs false
    else (if inWord then 0 else 1) + countTokensGo cs true

/-- `len(s.split())` on a character list. -/
def countTokens (cs : List Char) : Nat := countTokensGo cs false

/-- Embeds `ContentValidator._count_words`: strip fenced code blocks, strip
inline code, remove markdown punctuation, then count whitespace-separated
words. -/
def countWordsValidator (content : String) : Nat :=
  countTokens ((stripInline (stripFenced content.data)).filter (fun c => ¬ isMdSpecial c))

/-- Embeds `ChapterGenerator._count_words`: a plain whitespace split of the
raw text, `len(content.split())`. -/
def countWordsChapter (content : String) : Nat := countTokens content.data

/-! ### Chapter validator: structure, word count, reading time -/

/-- Splits a character list into lines at newline characters. -/
def splitLines : List Char → List (List Char)
  | [] => [[]]
  | c :: cs =>
    if c = '\n' then [] :: splitLines cs
    else
      match splitLines cs with
      | l :: ls => (c :: l) :: ls
      | [] => [[c]]

/-- A line matching the H1 regex of `ContentValidator._validate_structure`
(multiline `^#\s+.+$`): a hash, at least one whitespace character, then at
least one further character on the same line. -/
def isH1Line : List Char → Bool
  | '#' :: c :: _ :: _ => c.isWhitespace
  | _ => false

/-- A line matching the H2 regex (multiline `^##\s+.+$`). -/
def isH2Line : List Char → Bool
  | '#' :: '#' :: c :: _ :: _ => c.isWhitespace
  | _ => false

/-- Embeds `ContentValidator._validate_structure`: exactly one H1 heading
required, at least one H2 section required. -/
def validateStructureErrors (content : String) : List String :=
  let lines := splitLines content.data
  let h1Count := (lines.filter isH1Line).length
  let h2Count := (lines.filter isH2Line).length
  let h1Errors :=
    if h1Count = 0 then ["Missing H1 heading (chapter title)"]
    else if 1 < h1Count then
      ["Multiple H1 headings found (" ++ toString h1Count ++ "), expected 1"]
    else []
  let h2Errors :=
    if h2Count = 0 then ["No H2 sections found (chapter should have sections)"] else []
  h1Errors ++ h2Errors

/-- Embeds `ContentValidator._validate_markdown_syntax`. The markdown-it
parser (third-party library, not in this repository) is permissive and never
raises; it returns an empty token list exactly on blank input, which is the
only condition the source turns into an error. Modelled accordingly. -/
def validateMarkdownSyntaxErrors (content : String) : List String :=
  if isBlank content then ["Failed to parse markdown (empty token list)"] else []

/-- Embeds `ContentValidator._validate_word_count` (constitution bounds
`MIN_WORD_COUNT = 800`, `MAX_WORD_COUNT = 1200`). The Python parameter is an
`int`, so the domain is `Int`. -/
def validateWordCountErrors (word_count : Int) : List String :=
  if word_count < 800 then
    ["Word count too low: " ++ toString word_count ++ " (minimum 800)"]
  else if 1200 < word_count then
    ["Word count too high: " ++ toString word_count ++ " (maximum 1200)"]
  else []

/-- Embeds `ContentValidator._calculate_reading_time`:
`round(word_count / 200)` with Python's `round`, which rounds halves to even.
For the word counts in play, `word_count / 200` is either exactly
representable as a float (halves `m + 0.5`) or far enough from a half for
float error not to change the result, so rational half-to-even rounding is
exact. -/
def calculateReadingTime (word_count : Nat) : Nat :=
  let q := word_count / 200
  let r := word_count % 200
  if r < 100 then q
  else if r = 100 then (if q % 2 = 0 then q else q + 1)
  else q + 1

/-- Embeds `ContentValidator._validate_reading_time` (bounds
`MIN_READING_TIME = 5`, `MAX_READING_TIME = 7`). -/
def validateReadingTimeErrors (reading_time : Nat) : List String :=
  if reading_time < 5 then
    ["Reading time too short: " ++ toString reading_time ++ " min (minimum 5)"]
  else if 7 < reading_time then
    ["Reading time too long: " ++ toString reading_time ++ " min (maximum 7)"]
  else []

/-- A line opening a `## Learning Objectives` section, matching the header
part of the `_extract_learning_objectives` regex
(`##\s*Learning Objectives?\s*` up to the end of the line,
case-insensitively). The regex's ability to let `\s` cross line breaks is
not modelled (it affects only the non-blocking warning, which no claim
touches). -/
def isObjectivesHeaderLine (l : List Char) : Bool :=
  match l with
  | '#' :: '#' :: rest =>
    let r := rest.dropWhile Char.isWhitespace
    let target := "learning objective".data
    (r.take 18).map Char.toLower = target ∧
      ((r.drop 18).dropWhile (fun c => c.toLower = 's')).all Char.isWhitespace
  | _ => false

/-- A line matching the list-item regex `^[-*]\s+(.+)$` used for objectives. -/
def isListItemLine : List Char → Bool
  | c :: c2 :: _ :: _ => (c = '-' ∨ c = '*') ∧ c2.isWhitespace
  | _ => false

/-- Embeds `ContentValidator._extract_learning_objectives` (returning only the
count, which is all `validate_chapter` uses): the list items between the
first `## Learning Objectives` header and the next `##` header or the end. -/
def learningObjectivesCount (content : String) : Nat :=
  let lines := splitLines content.data
  match lines.findIdx? isObjectivesHeaderLine with
  | none => 0
  | some i =>
    let section_ := (lines.drop (i + 1)).takeWhile (fun l => l.take 2 ≠ ['#', '#'])
    (section_.filter isListItemLine).length

/-- Embeds `ContentValidator.validate_chapter`: markdown-syntax, structure,
word-count and reading-time errors aggregated in source order, plus the
non-blocking learning-objectives warning and the metrics map. -/
def validate_chapter (content : String) : ValidationResult :=
  let syntaxErrors := validateMarkdownSyntaxErrors content
  let structureErrors := validateStructureErrors content
  let word_count := countWordsValidator content
  let wordCountErrors := validateWordCountErrors (word_count : Int)
  let reading_time := calculateReadingTime word_count
  let readingTimeErrors := validateReadingTimeErrors reading_time
  let objectivesCount := learningObjectivesCount content
  let errors := syntaxErrors ++ structureErrors ++ wordCountErrors ++ readingTimeErrors
  { valid := errors.isEmpty
    errors := errors
    warnings := if objectivesCount = 0 then ["No learning objectives section found"] else []
    metrics := [("word_count", (word_count : Int)),
                ("reading_time_minutes", (reading_time : Int)),
                ("learning_objectives_count", (objectivesCount : Int))] }

/-! ### LLM client (`llm_client.py`) -/

/-- Embeds `GenerationResult` from `llm_client.py` (the `metadata` dict only
repeats the token fields and the response id, which the core never reads). -/
structure GenerationResult where
  content : String
  model : String
  tokens_used : Nat
  finish_reason : String
deriving Repr, DecidableEq

/-- One outcome of a call to the external provider
(`self.client.messages.create`), the oracle input of `LLMClient.generate`:
either a successful response or one of the exception classes the source
distinguishes. -/
inductive ProviderResponse where
  | success (content : String) (model : String) (tokensIn tokensOut : Nat) (stopReason : String)
  | rateLimit (msg : String)
  | connectionError (msg : String)
  | apiError (msg : String)
  | otherError (msg : String)
deriving Repr, DecidableEq

/-- Embeds `LLMClient._calculate_backoff`:
`random.uniform(0, retry_delay * 2 ** attempt)`. The uniform draw is modelled
as a fraction `u ∈ [0, 1]` of the maximum delay. -/
def calculateBackoff (retry_delay : ℚ) (attempt : Nat) (u : ℚ) : ℚ :=
  u * (retry_delay * 2 ^ attempt)

/-- The retry loop of `LLMClient.generate`, with the provider modelled as a
list of responses consumed one per call. Returns the outcome (a result, or
the `GenerationError` message raised), the number of provider calls made,
and the total tokens added to the client's counter. `attempt` is the
0-indexed loop variable of `for attempt in range(self.max_retries)`. -/
def llmGenerateGo (max_retries : Nat) (attempt : Nat) :
    List ProviderResponse → Nat → Nat → Except String GenerationResult × Nat × Nat
  | responses, calls, tokens =>
    if attempt < max_retries then
      match responses with
      | [] => (.error ("Generation failed after " ++ toString max_retries ++ " attempts"),
               calls, tokens)
      | r :: rest =>
        match r with
        | .success c m tin tout stop =>
          (.ok ⟨c, m, tin + tout, stop⟩, calls + 1, tokens + (tin + tout))
        | .rateLimit _ =>
          if attempt < max_retries - 1 then
            llmGenerateGo max_retries (attempt + 1) rest (calls + 1) tokens
          else
            (.error ("Rate limit exceeded after " ++ toString max_retries ++ " attempts"),
             calls + 1, tokens)
        | .connectionError _ =>
          if attempt < max_retries - 1 then
            llmGenerateGo max_retries (attempt + 1) rest (calls + 1) tokens
          else
            (.error ("Connection failed after " ++ toString max_retries ++ " attempts"),
             calls + 1, tokens)
        | .apiError m => (.error ("API error: " ++ m), calls + 1, tokens)
        | .otherError m => (.error ("Unexpected error: " ++ m), calls + 1, tokens)
    else
      (.error ("Generation failed after " ++ toString max_retries ++ " attempts"), calls, tokens)

/-- Embeds `LLMClient.generate` on a fresh client: start at attempt 0 with no
calls made and a zero token counter. -/
def llmGenerate (max_retries : Nat) (responses : List ProviderResponse) :
    Except String GenerationResult × Nat × Nat :=
  llmGenerateGo max_retries 0 responses 0 0

/-! ### Chapter generator (`chapter_generator.py`) -/

/-- Embeds `ChapterGenerationResult` from `chapter_generator.py`. -/
structure ChapterGenerationResult where
  content : String
  chapter_number : Nat
  chapter_title : String
  word_count : Nat
  tokens_used : Nat
  model_used : String
  generation_attempts : Nat
  validation_passed : Bool
deriving Repr, DecidableEq

/-- Embeds `ChapterGenerator._is_word_count_valid`: `800 <= word_count <= 1200`. -/
def isWordCountValid (word_count : Nat) : Bool :=
  800 ≤ word_count ∧ word_count ≤ 1200

/-- Embeds `ChapterGenerator._add_word_count_emphasis`: the expand addendum
below 800 words, the trim addendum otherwise. -/
def addWordCountEmphasis (original_prompt : String) (actual_count : Nat) (target_count : Nat) :
    String :=
  if actual_count < 800 then
    original_prompt ++ "\n\n**CRITICAL**: The previous attempt was too short (" ++
      toString actual_count ++ " words). You MUST generate at least 800 words. Target is " ++
      toString target_count ++ " words. Add more depth, examples, and explanations to reach the required length."
  else
    original_prompt ++ "\n\n**CRITICAL**: The previous attempt was too long (" ++
      toString actual_count ++ " words). You MUST stay under 1200 words. Target is " ++
      toString target_count ++ " words. Be more concise and focused on core concepts."

/-- One outcome of `generate_with_rate_limit_buffer` as observed by a
generator loop: a successful `GenerationResult`, or the message of the
`GenerationError` the client raised. -/
abbrev LLMCallOutcome := Except String GenerationResult

/-- The attempt loop of `ChapterGenerator.generate_chapter`
(`for attempt in range(1, self.max_generation_attempts + 1)`), with the LLM
client modelled as a list of call outcomes consumed one per attempt.
`prompt` is the mutable `user_prompt` local, threaded explicitly. On a
client `GenerationError` the loop re-raises if attempts are exhausted, else
retries; on an out-of-range word count with `enforce_word_count` it retries
with the emphasis addendum unless this was the last attempt, in which case
the content is accepted with `validation_passed = false`. -/
def generateChapterGo (max_attempts : Nat) (enforce_word_count : Bool)
    (number : Nat) (title : String) (target : Nat) (prompt : String) (attempt : Nat)
    (outcomes : List LLMCallOutcome) : Except String ChapterGenerationResult :=
    if max_attempts < attempt then
      .error ("Failed to generate Chapter " ++ toString number ++ " after " ++
              toString max_attempts ++ " attempts")
    else
      match outcomes with
      | [] =>
        .error ("Failed to generate Chapter " ++ toString number ++ " after " ++
                toString max_attempts ++ " attempts")
      | o :: rest =>
        match o with
        | .error e =>
          if max_attempts ≤ attempt then .error e
          else generateChapterGo max_attempts enforce_word_count number title target prompt
            (attempt + 1) rest
        | .ok r =>
          let word_count := countWordsChapter r.content
          if enforce_word_count ∧ ¬ isWordCountValid word_count ∧ attempt < max_attempts then
            generateChapterGo max_attempts enforce_word_count number title target
              (addWordCountEmphasis prompt word_count target) (attempt + 1) rest
          else
            .ok { content := r.content
                  chapter_number := number
                  chapter_title := title
                  word_count := word_count
                  tokens_used := r.tokens_used
                  model_used := r.model
                  generation_attempts := attempt
                  validation_passed := isWordCountValid word_count }

/-- Embeds `ChapterGenerator.generate_chapter`: the loop starts at attempt 1
with the initial chapter prompt. -/
def generate_chapter (max_attempts : Nat) (enforce_word_count : Bool)
    (number : Nat) (title : String) (target : Nat) (initial_prompt : String)
    (outcomes : List LLMCallOutcome) : Except String ChapterGenerationResult :=
  generateChapterGo max_attempts enforce_word_count number title target initial_prompt 1 outcomes

/-! ### JSON payloads and the parse helpers of the summary/quiz/booster
generators.  Python's `json.loads` (stdlib, not repository code) is modelled
as an oracle: each LLM attempt carries the decoded value, or the
`json.JSONDecodeError` message when decoding failed.  The code-fence
stripping that precedes `json.loads` in the source operates on the raw text
and is subsumed by this oracle. -/

/-- A JSON value as produced by `json.loads` (numeric payloads in this code
are integers). -/
inductive Json where
  | null
  | bool (b : Bool)
  | num (n : Int)
  | str (s : String)
  | arr (elems : List Json)
  | obj (fields : List (String × Json))
deriving Repr

/-- The exception classes a parse helper can raise, both caught by the
generators' `except (json.JSONDecodeError, ValueError)` clause. -/
inductive ParseErr where
  | jsonDecode (msg : String)
  | valueError (msg : String)
deriving Repr, DecidableEq

/-- The exception classes a whole generator loop can surface. -/
inductive PyErr where
  | genError (msg : String)
  | keyError (key : String)
  | typeError (msg : String)
  | attributeError (msg : String)
deriving Repr, DecidableEq

/-- Python's rendering of `type(x)` for the `Expected JSON array, got …`
messages. -/
def jsonTypeName : Json → String
  | .null => "<class 'NoneType'>"
  | .bool _ => "<class 'bool'>"
  | .num _ => "<class 'int'>"
  | .str _ => "<class 'str'>"
  | .arr _ => "<class 'list'>"
  | .obj _ => "<class 'dict'>"

/-- Embeds `SummaryGenerator._parse_takeaways_json` from `json.loads`
onward: the decoded value must be an array whose items are all strings. -/
def parse_takeaways_json (decoded : Except String Json) : Except ParseErr (List String) :=
  match decoded with
  | .error m => .error (.jsonDecode m)
  | .ok (.arr xs) =>
    if xs.all (fun j => match j with | .str _ => true | _ => false) then
      .ok (xs.filterMap (fun j => match j with | .str s => some s | _ => none))
    else .error (.valueError "All takeaways must be strings")
  | .ok j => .error (.valueError ("Expected JSON array, got " ++ jsonTypeName j))

/-- The per-element check of `QuizGenerator._parse_quiz_json`: element `i`
(0-based) must be a dict containing the three required fields. Python
renders the missing fields as a set, whose iteration order is
implementation-defined; the model renders them in a fixed order. -/
def quizElementError (i : Nat) : Json → Option ParseErr
  | .obj fields =>
    let missing := (["question_text", "options", "correct_index"].filter
      (fun k => (fields.lookup k).isNone))
    if missing.isEmpty then none
    else some (.valueError ("Question " ++ toString (i + 1) ++ " missing required fields: " ++
      toString missing))
  | _ => some (.valueError ("Question " ++ toString (i + 1) ++ " is not a dictionary"))

/-- Embeds `QuizGenerator._parse_quiz_json` from `json.loads` onward: the
decoded value must be an array, and every element a dict with the required
fields (the first offending element raises). -/
def parse_quiz_json (decoded : Except String Json) : Except ParseErr (List Json) :=
  match decoded with
  | .error m => .error (.jsonDecode m)
  | .ok (.arr xs) =>
    match xs.enum.findSome? (fun p => quizElementError p.1 p.2) with
    | some e => .error e
    | none => .ok xs
  | .ok j => .error (.valueError ("Expected JSON array, got " ++ jsonTypeName j))

/-- Embeds `BoosterGenerator._parse_boosters_json` from `json.loads` onward:
only the top-level array shape is checked — element keys are NOT checked. -/
def parse_boosters_json (decoded : Except String Json) : Except ParseErr (List Json) :=
  match decoded with
  | .error m => .error (.jsonDecode m)
  | .ok (.arr xs) => .ok xs
  | .ok j => .error (.valueError ("Expected array, got " ++ jsonTypeName j))

/-! ### Summary generator loop (`summary_generator.py`) -/

/-- One successful `generate_with_rate_limit_buffer` call as consumed by the
JSON-producing generators: token/model metadata plus the decoded payload
(the `json.loads` oracle). -/
structure LLMJsonAttempt where
  decoded : Except String Json
  tokens_used : Nat
  model : String
deriving Repr

/-- Embeds `SummaryGenerationResult` from `summary_generator.py`. -/
structure SummaryGenerationResult where
  takeaways : List String
  chapter_number : Nat
  chapter_title : String
  tokens_used : Nat
  model_used : String
  generation_attempts : Nat
  validation_passed : Bool
deriving Repr, DecidableEq

/-- The emphasis text of `SummaryGenerator._add_json_format_emphasis`. -/
def summaryJsonFormatEmphasisText : String :=
  "\n\n**CRITICAL**: Your response MUST be a valid JSON array of strings. " ++
  "Example format:\n[\"Takeaway 1\", \"Takeaway 2\", \"Takeaway 3\"]\n" ++
  "Do NOT include any markdown formatting, code blocks, or explanations. " ++
  "Return ONLY the JSON array."

/-- Embeds `SummaryGenerator._add_json_format_emphasis`. -/
def addJsonFormatEmphasisSummary (original_prompt : String) : String :=
  original_prompt ++ summaryJsonFormatEmphasisText

/-- Embeds `SummaryGenerator._add_validation_emphasis`. -/
def addValidationEmphasisSummary (original_prompt : String) (vr : ValidationResult) : String :=
  original_prompt ++
  "\n\n**CRITICAL**: The previous attempt failed validation with these errors: " ++
  String.intercalate "; " vr.errors ++
  "\n\nRequirements:\n- Generate exactly 3-5 takeaways\n" ++
  "- Each takeaway must be 50-150 characters\n" ++
  "- Return as JSON array: [\"Takeaway 1\", \"Takeaway 2\", ...]\n" ++
  "Please fix these issues and try again."

/-- The attempt loop of `SummaryGenerator.generate_summary`, the LLM client
modelled as a list of call outcomes (left = `GenerationError` message),
`user_prompt` threaded explicitly, `attempt` running from 1. Parse failure
retries with the JSON-format emphasis appended while attempts remain and
raises `GenerationError` at the cap; a validation failure under
`enforce_validation` retries with the validation emphasis, but on the last
attempt the takeaways are accepted with `validation_passed = false`. -/
def summaryGo (max_attempts : Nat) (enforce_validation : Bool)
    (chapter_title : String) (chapter_number : Nat) (prompt : String) (attempt : Nat)
    (outcomes : List (Except String LLMJsonAttempt)) : Except PyErr SummaryGenerationResult :=
  if max_attempts < attempt then
    .error (.genError ("Failed to generate summary for Chapter " ++ toString chapter_number ++
      " after " ++ toString max_attempts ++ " attempts"))
  else
    match outcomes with
    | [] =>
      .error (.genError ("Failed to generate summary for Chapter " ++ toString chapter_number ++
        " after " ++ toString max_attempts ++ " attempts"))
    | o :: rest =>
      match o with
      | .error e =>
        if max_attempts ≤ attempt then .error (.genError e)
        else summaryGo max_attempts enforce_validation chapter_title chapter_number prompt
          (attempt + 1) rest
      | .ok r =>
        match parse_takeaways_json r.decoded with
        | .error _ =>
          if attempt < max_attempts then
            summaryGo max_attempts enforce_validation chapter_title chapter_number
              (addJsonFormatEmphasisSummary prompt) (attempt + 1) rest
          else
            .error (.genError ("Failed to parse summary JSON after " ++
              toString max_attempts ++ " attempts"))
        | .ok takeaways =>
          let vr := validate_summary takeaways 3 5
          if enforce_validation ∧ ¬ vr.valid ∧ attempt < max_attempts then
            summaryGo max_attempts enforce_validation chapter_title chapter_number
              (addValidationEmphasisSummary prompt vr) (attempt + 1) rest
          else
            .ok { takeaways := takeaways
                  chapter_number := chapter_number
                  chapter_title := chapter_title
                  tokens_used := r.tokens_used
                  model_used := r.model
                  generation_attempts := attempt
                  validation_passed := vr.valid }

/-- Embeds `SummaryGenerator.generate_summary`: the loop starts at attempt 1
with the initial summary prompt. -/
def generate_summary (max_attempts : Nat) (enforce_validation : Bool)
    (chapter_title : String) (chapter_number : Nat) (initial_prompt : String)
    (outcomes : List (Except String LLMJsonAttempt)) : Except PyErr SummaryGenerationResult :=
  summaryGo max_attempts enforce_validation chapter_title chapter_number initial_prompt 1 outcomes

/-! ### Quiz generator loop (`quiz_generator.py`) -/

/-- Embeds `QuizGenerationResult` from `quiz_generator.py` (questions kept as
the parsed JSON dicts, as in the source). -/
structure QuizGenerationResult where
  questions : List Json
  chapter_number : Nat
  chapter_title : String
  tokens_used : Nat
  model_used : String
  generation_attempts : Nat
  validation_passed : Bool
deriving Repr

/-- Python's `len(options)` / iteration view of an `options` value: a list
keeps its elements, a string iterates as its one-character substrings, a
dict iterates as its keys (all of which `len` accepts), and every other
type raises `TypeError` — exactly where `validate_quiz` first touches the
value. (Exception message texts are abbreviated, not Python's verbatim
wording.) -/
def quizOptionsElems : Json → Except PyErr (List Json)
  | .arr xs => .ok xs
  | .str s => .ok (s.data.map (fun c => Json.str (String.singleton c)))
  | .obj fs => .ok (fs.map (fun p => Json.str p.1))
  | _ => .error (.typeError "object has no len()")

/-- Python's `0 <= correct_index <= 3` view of a `correct_index` value:
ints compare, bools compare as 0/1, anything else raises `TypeError` at the
comparison. -/
def quizIndexValue : Json → Except PyErr Int
  | .num n => .ok n
  | .bool b => .ok (if b then 1 else 0)
  | _ => .error (.typeError "'<=' not supported between instances of 'int' and other type")

/-- Python's `.strip()` view of a string-typed value: a non-string raises
`AttributeError`. -/
def quizStrValue : Json → Except PyErr String
  | .str s => .ok s
  | _ => .error (.attributeError "object has no attribute 'strip'")

/-- Typed view of one parsed quiz dict as `validate_quiz` executes on it.
A missing required field makes the validator `continue` before touching any
value, so extraction stops there with the corresponding `none` (placeholder
values for fields the validator will never read). When the three required
fields are present, the validator's dynamic accesses run in source order —
`len(options)`, the `correct_index` range comparison,
`question_text.strip()`, each `option.strip()` — and the first ill-typed
access raises, escaping `generate_quiz` uncaught. A present non-string
`difficulty` never raises (the membership test accepts any type); it is
rendered to a non-matching string, so the warning fires as in Python
(with abbreviated text). On a question whose `options` or `correct_index`
is missing, the validator never touches `question_text`, but `q.get` still
feeds its raw value to the duplicate-detection `set()`; `jsonAsStrKey`
keeps a string's text exactly and renders any other value by its type name
— a warnings-only abbreviation (same-typed non-string values collide, an
unhashable value's `TypeError` is not modelled). -/
def jsonAsStrKey : Json → String
  | .str s => s
  | v => jsonTypeName v

/-- See the comment on `jsonAsStrKey` above: one parsed quiz dict, extracted
exactly as `validate_quiz` would dynamically access it. -/
def toQuizQuestionChecked (j : Json) : Except PyErr QuizQuestion :=
  match j with
  | .obj fields =>
    match fields.lookup "question_text" with
    | none =>
      .ok { question_text := none
            options := none
            correct_index := none
            difficulty := none }
    | some qtv =>
      match fields.lookup "options" with
      | none =>
        .ok { question_text := some (jsonAsStrKey qtv)
              options := none
              correct_index := none
              difficulty := none }
      | some ov =>
        match fields.lookup "correct_index" with
        | none =>
          .ok { question_text := some (jsonAsStrKey qtv)
                options := some []
                correct_index := none
                difficulty := none }
        | some civ =>
          match quizOptionsElems ov with
          | .error e => .error e
          | .ok elems =>
            match quizIndexValue civ with
            | .error e => .error e
            | .ok ci =>
              match quizStrValue qtv with
              | .error e => .error e
              | .ok qt =>
                match elems.mapM quizStrValue with
                | .error e => .error e
                | .ok opts =>
                  .ok { question_text := some qt
                        options := some opts
                        correct_index := some ci
                        difficulty := (fields.lookup "difficulty").map jsonAsStrKey }
  | _ =>
    .ok { question_text := none
          options := none
          correct_index := none
          difficulty := none }

/-- The typed views of a whole parsed quiz, question by question: Python
raises at the first ill-typed access, during `validate_quiz`; the partial
error list built before the raise is discarded with the exception, so
factoring the accesses out of the validator preserves the observable
outcome of `generate_quiz`. -/
def questionsChecked (questions : List Json) : Except PyErr (List QuizQuestion) :=
  questions.mapM toQuizQuestionChecked

/-- The emphasis text of `QuizGenerator._add_json_format_emphasis`. -/
def quizJsonFormatEmphasisText : String :=
  "\n\n**CRITICAL**: Your response MUST be a valid JSON array of question objects. " ++
  "Example format:\n" ++
  "[\x7b\"question_text\": \"...\", \"options\": [\"A\", \"B\", \"C\", \"D\"], \"correct_index\": 0, " ++
  "\"difficulty\": \"easy\", \"topic\": \"...\"\x7d]\n" ++
  "Do NOT include any markdown formatting, code blocks, or explanations. " ++
  "Return ONLY the JSON array."

/-- Embeds `QuizGenerator._add_json_format_emphasis`. -/
def addJsonFormatEmphasisQuiz (original_prompt : String) : String :=
  original_prompt ++ quizJsonFormatEmphasisText

/-- Embeds `QuizGenerator._add_validation_emphasis`. -/
def addValidationEmphasisQuiz (original_prompt : String) (num_questions : Nat)
    (vr : ValidationResult) : String :=
  original_prompt ++
  "\n\n**CRITICAL**: The previous attempt failed validation with these errors: " ++
  String.intercalate "; " vr.errors ++
  "\n\nRequirements:\n- Generate exactly " ++ toString num_questions ++ " questions\n" ++
  "- Each question must have exactly 4 options\n" ++
  "- Each question must have exactly 1 correct answer (correct_index: 0-3)\n" ++
  "- All question_text fields must be non-empty\n" ++
  "- All options must be non-empty strings\n" ++
  "- Return as JSON array with required fields\n" ++
  "Please fix these issues and try again."

/-- The attempt loop of `QuizGenerator.generate_quiz`, structured exactly as
the summary loop; validation runs with
`min_questions = max_questions = self.num_questions` as in the source. The
parser checks only key presence, so `validate_quiz` runs on raw dicts: an
ill-typed field raises (`questionsChecked` returning an error) and the
exception escapes the loop — no handler catches `TypeError` or
`AttributeError`. -/
def quizGo (max_attempts : Nat) (enforce_validation : Bool) (num_questions : Nat)
    (chapter_title : String) (chapter_number : Nat) (prompt : String) (attempt : Nat)
    (outcomes : List (Except String LLMJsonAttempt)) : Except PyErr QuizGenerationResult :=
  if max_attempts < attempt then
    .error (.genError ("Failed to generate quiz for Chapter " ++ toString chapter_number ++
      " after " ++ toString max_attempts ++ " attempts"))
  else
    match outcomes with
    | [] =>
      .error (.genError ("Failed to generate quiz for Chapter " ++ toString chapter_number ++
        " after " ++ toString max_attempts ++ " attempts"))
    | o :: rest =>
      match o with
      | .error e =>
        if max_attempts ≤ attempt then .error (.genError e)
        else quizGo max_attempts enforce_validation num_questions chapter_title chapter_number
          prompt (attempt + 1) rest
      | .ok r =>
        match parse_quiz_json r.decoded with
        | .error _ =>
          if attempt < max_attempts then
            quizGo max_attempts enforce_validation num_questions chapter_title chapter_number
              (addJsonFormatEmphasisQuiz prompt) (attempt + 1) rest
          else
            .error (.genError ("Failed to parse quiz JSON after " ++
              toString max_attempts ++ " attempts"))
        | .ok questions =>
          match questionsChecked questions with
          | .error e => .error e
          | .ok typed =>
            let vr := validate_quiz typed num_questions num_questions
            if enforce_validation ∧ ¬ vr.valid ∧ attempt < max_attempts then
              quizGo max_attempts enforce_validation num_questions chapter_title chapter_number
                (addValidationEmphasisQuiz prompt num_questions vr) (attempt + 1) rest
            else
              .ok { questions := questions
                    chapter_number := chapter_number
                    chapter_title := chapter_title
                    tokens_used := r.tokens_used
                    model_used := r.model
                    generation_attempts := attempt
                    validation_passed := vr.valid }

/-- Embeds `QuizGenerator.generate_quiz`: the loop starts at attempt 1. -/
def generate_quiz (max_attempts : Nat) (enforce_validation : Bool) (num_questions : Nat)
    (chapter_title : String) (chapter_number : Nat) (initial_prompt : String)
    (outcomes : List (Except String LLMJsonAttempt)) : Except PyErr QuizGenerationResult :=
  quizGo max_attempts enforce_validation num_questions chapter_title chapter_number
    initial_prompt 1 outcomes

/-! ### Booster generator loop (`booster_generator.py`) -/

/-- Embeds `BoosterGenerationResult` from `booster_generator.py` (boosters
kept as the parsed JSON dicts, as in the source). -/
structure BoosterGenerationResult where
  boosters : List Json
  chapter_number : Nat
  chapter_title : String
  tokens_used : Nat
  model_used : String
  generation_attempts : Nat
  validation_passed : Bool
deriving Repr

/-- Python subscript `b[key]` on a parsed booster element: a present key
yields its value, an absent key raises `KeyError`, a non-dict element raises
`TypeError`. -/
def jsonGetKey (j : Json) (key : String) : Except PyErr Json :=
  match j with
  | .obj fields =>
    match fields.lookup key with
    | some v => .ok v
    | none => .error (.keyError key)
  | _ => .error (.typeError "booster element is not a dict")

/-- Embeds the validation expression of `BoosterGenerator.generate_boosters`:
`all(self.validator.validate_learning_booster(b['content'],
b['booster_type']).valid for b in boosters)`. Python's `all` over the
generator evaluates one element at a time, raising `KeyError` at the first
missing key and stopping early at the first invalid booster. A non-string
`content` would fail on `len`/`strip` (`TypeError`); a non-string
`booster_type` merely fails the membership check inside the validator. -/
def boosterAllValid : List Json → Except PyErr Bool
  | [] => .ok true
  | b :: rest =>
    match jsonGetKey b "content" with
    | .error e => .error e
    | .ok cv =>
      match cv with
      | .str c =>
        match jsonGetKey b "booster_type" with
        | .error e => .error e
        | .ok tv =>
          let t := match tv with | .str s => s | _ => "<non-string booster_type>"
          if (validate_learning_booster c t 100 300).valid then boosterAllValid rest
          else .ok false
      | _ => .error (.typeError "booster content is not a string")

/-- Embeds `BoosterGenerator._extract_sections`
(`re.split(r'\n##\s+', content)`, stripped, non-empty entries kept). The
split is modelled at the exact separator `"\n## "`; the regex also accepts
longer whitespace runs after `##`, which only changes which text feeds the
prompt builder — no claim depends on it. -/
def extractSections (content : String) : List String :=
  ((content.splitOn "\n## ").map String.trim).filter (fun s => s ≠ "")

/-- Embeds `get_booster_generation_prompt` from `prompts.py`. The prompt
boilerplate is abbreviated; what the claims use is that the same arguments
always produce the same prompt string. -/
def get_booster_generation_prompt (chapter_content chapter_title section_text booster_type :
    String) (num_boosters : Nat) : String :=
  "Generate learning boosters for the following chapter section:\n\n**Chapter Title**: " ++
  chapter_title ++ "\n\n**Full Chapter Content** (for context):\n" ++ chapter_content ++
  "\n\n**Target Section** (generate boosters for this specific content):\n" ++ section_text ++
  "\n\n**Booster Type**: " ++ booster_type ++
  "\n\nRequirements:\n1. Generate exactly " ++ toString num_boosters ++
  " learning boosters\n2. Each booster should be 100-300 characters\n" ++
  "Return the boosters as a JSON array of objects."

/-- The attempt loop of `BoosterGenerator.generate_boosters`. Unlike the
summary and quiz loops, `user_prompt` is rebuilt from the same arguments
inside every iteration — no emphasis is ever appended — and a parse failure
caught by `except (json.JSONDecodeError, ValueError)` simply falls through
to the next iteration (raising `GenerationError` only when attempts are
exhausted). A `KeyError`/`TypeError` from the validation expression is
caught by no handler and escapes. Besides the outcome, the model returns
the list of prompts used, one per attempt made. -/
def boosterGo (max_attempts : Nat) (chapter_content chapter_title : String)
    (chapter_number num_boosters : Nat) (attempt : Nat)
    (outcomes : List (Except String LLMJsonAttempt)) :
    Except PyErr BoosterGenerationResult × List String :=
  if max_attempts < attempt then
    (.error (.genError ("Failed to generate boosters for Chapter " ++ toString chapter_number ++
      " after " ++ toString max_attempts ++ " attempts")), [])
  else
    match outcomes with
    | [] =>
      (.error (.genError ("Failed to generate boosters for Chapter " ++ toString chapter_number ++
        " after " ++ toString max_attempts ++ " attempts")), [])
    | o :: rest =>
      let sections := extractSections chapter_content
      let section_text := sections.headD (⟨chapter_content.data.take 1000⟩ : String)
      let user_prompt :=
        get_booster_generation_prompt chapter_content chapter_title section_text "analogy"
          num_boosters
      match o with
      | .error e =>
        if max_attempts ≤ attempt then (.error (.genError e), [user_prompt])
        else
          let next := boosterGo max_attempts chapter_content chapter_title chapter_number
            num_boosters (attempt + 1) rest
          (next.1, user_prompt :: next.2)
      | .ok r =>
        match parse_boosters_json r.decoded with
        | .error _ =>
          if max_attempts ≤ attempt then
            (.error (.genError ("Failed to parse booster JSON after " ++
              toString max_attempts ++ " attempts")), [user_prompt])
          else
            let next := boosterGo max_attempts chapter_content chapter_title chapter_number
              num_boosters (attempt + 1) rest
            (next.1, user_prompt :: next.2)
        | .ok boosters =>
          match boosterAllValid boosters with
          | .error e => (.error e, [user_prompt])
          | .ok all_valid =>
            (.ok { boosters := boosters
                   chapter_number := chapter_number
                   chapter_title := chapter_title
                   tokens_used := r.tokens_used
                   model_used := r.model
                   generation_attempts := attempt
                   validation_passed := all_valid }, [user_prompt])

/-- Embeds `BoosterGenerator.generate_boosters`: the loop starts at attempt 1. -/
def generate_boosters (max_attempts : Nat) (chapter_content chapter_title : String)
    (chapter_number num_boosters : Nat) (outcomes : List (Except String LLMJsonAttempt)) :
    Except PyErr BoosterGenerationResult × List String :=
  boosterGo max_attempts chapter_content chapter_title chapter_number num_boosters 1 outcomes

/-! ### Batch orchestrator (`generation_service.py`)

The database-backed `GenerationJob` row is modelled as an explicit state
value threaded through the run; the network is an oracle giving each
curriculum unit's outcome. The summary fan-out
(`asyncio.gather`) completes in some serialization of the per-unit tasks;
since each task's job update commutes with the others on the counters, the
final job state is independent of the interleaving and is modelled as a
sequential fold. -/

/-- Embeds `JobStatus` from `generation_job.py`. -/
inductive JobStatus where
  | pending
  | in_progress
  | completed
  | failed
deriving Repr, DecidableEq

/-- Embeds the `GenerationJob` columns the orchestrator mutates (errors
modelled by their message strings; the source also stores a timestamp per
error). The table declares the check constraint
`chapters_completed <= chapters_total`. -/
structure JobState where
  status : JobStatus
  chapters_completed : Nat
  chapters_total : Nat
  errors : List String
  token_usage : Nat
deriving Repr, DecidableEq

/-- Embeds `GenerationJob.add_error` (message part). -/
def addJobError (msg : String) (job : JobState) : JobState :=
  { job with errors := job.errors ++ [msg] }

/-- Embeds `GenerationService._increment_job_progress`: increments
`chapters_completed` by one and adds the attempt's tokens, unconditionally. -/
def incrementJobProgress (tokens_used : Nat) (job : JobState) : JobState :=
  { job with chapters_completed := job.chapters_completed + 1
             token_usage := job.token_usage + tokens_used }

/-- The outcome of one curriculum unit in either stage, as seen by the
orchestrator's per-unit handler: success carrying the tokens reported, or
the message of the exception caught. -/
inductive UnitOutcome where
  | ok (tokens : Nat)
  | exn (msg : String)
deriving Repr, DecidableEq

/-- The error messages the chapter loop records, one per failed unit, in
curriculum order. -/
def chapterErrorMessages (units : List (Nat × UnitOutcome)) : List String :=
  units.filterMap (fun p => match p.2 with
    | .ok _ => none
    | .exn msg => some ("Failed to generate chapter " ++ toString p.1 ++ ": " ++ msg))

/-- The number of successful outcomes in a list. -/
def okCount (l : List UnitOutcome) : Nat :=
  (l.filter (fun u => match u with | .ok _ => true | .exn _ => false)).length

/-- The number of failed outcomes in a list (`failed = len(results) -
successful` in `_generate_summaries_for_chapters`). -/
def exnCount (l : List UnitOutcome) : Nat :=
  (l.filter (fun u => match u with | .ok _ => false | .exn _ => true)).length

/-- Tokens reported by the successful outcomes. -/
def okTokens (l : List UnitOutcome) : Nat :=
  (l.map (fun u => match u with | .ok t => t | .exn _ => 0)).sum

/-- The chapter loop of `GenerationService._execute_batch_generation`: per
unit, either the chapter succeeds and progress is incremented, or the
exception is recorded as `Failed to generate chapter N: …` and the loop
continues with the next unit. Units are paired with their chapter numbers. -/
def runChapterStage (job : JobState) : List (Nat × UnitOutcome) → JobState
  | [] => job
  | (n, u) :: rest =>
    match u with
    | .ok tokens => runChapterStage (incrementJobProgress tokens job) rest
    | .exn msg =>
      runChapterStage (addJobError ("Failed to generate chapter " ++ toString n ++ ": " ++ msg)
        job) rest

/-- The summary stage (`_generate_summaries_for_chapters` plus
`_generate_single_summary` per unit): each successful summary calls
`_increment_job_progress` with its tokens (which also bumps
`chapters_completed`); failures are only counted, and one aggregate error
`Failed to generate summaries for K chapters` is recorded if any failed. -/
def runSummaryStage (job : JobState) (summaries : List UnitOutcome) : JobState :=
  let afterUpdates := summaries.foldl
    (fun j u => match u with | .ok tokens => incrementJobProgress tokens j | .exn _ => j) job
  if 0 < exnCount summaries then
    addJobError ("Failed to generate summaries for " ++ toString (exnCount summaries) ++
      " chapters") afterUpdates
  else afterUpdates

/-- Embeds `GenerationService._execute_batch_generation` on a run in which no
exception escapes the per-unit and summary-stage handlers: status moves to
`in_progress`, the chapter loop runs, the summary fan-out runs, and
`_complete_job` marks the job `completed` unconditionally. -/
def executeBatchGeneration (job : JobState) (units : List (Nat × UnitOutcome))
    (summaries : List UnitOutcome) : JobState :=
  let j1 := { job with status := JobStatus.in_progress }
  let j2 := runChapterStage j1 units
  let j3 := runSummaryStage j2 summaries
  { j3 with status := JobStatus.completed }

/-! ## General lemmas -/

/-- The imperative error/warning accumulation of the validator loops equals
the concatenation of the per-item check outputs: the shape justifying every
"independent checks" statement below. -/
theorem foldl_pair_append {β : Type} (f : β → List String × List String) :
    ∀ (l : List β) (e w : List String),
      l.foldl (fun acc p => (acc.1 ++ (f p).1, acc.2 ++ (f p).2)) (e, w) =
        (e ++ (l.map (fun p => (f p).1)).flatten, w ++ (l.map (fun p => (f p).2)).flatten)
  | [], e, w => by simp
  | b :: l, e, w => by
    simp only [List.foldl_cons, List.map_cons, List.flatten_cons]
    rw [foldl_pair_append f l]
    simp [List.append_assoc]

theorem mem_enumFrom_snd {α : Type} :
    ∀ (l : List α) (n : Nat) (p : Nat × α), p ∈ l.enumFrom n → p.2 ∈ l
  | [], _, _, h => by simp [List.enumFrom] at h
  | a :: l, n, p, h => by
    simp only [List.enumFrom, List.mem_cons] at h
    rcases h with h | h
    · simp [h]
    · exact List.mem_cons_of_mem _ (mem_enumFrom_snd l (n + 1) p h)

theorem get?_mem_enumFrom {α : Type} :
    ∀ (l : List α) (n i : Nat) (t : α), l.get? i = some t → (n + i, t) ∈ l.enumFrom n
  | [], _, i, _, h => by simp at h
  | a :: l, n, 0, t, h => by
    simp only [List.get?] at h
    cases h
    simp [List.enumFrom]
  | a :: l, n, i + 1, t, h => by
    simp only [List.get?] at h
    have := get?_mem_enumFrom l (n + 1) i t h
    simp only [List.enumFrom, List.mem_cons]
    right
    have hx : n + 1 + i = n + (i + 1) := by omega
    rw [hx] at this
    exact this

/-- Decomposition of `validate_summary`: the source's accumulating loop
equals the concatenation of the independent per-takeaway check outputs. -/
theorem validate_summary_eq (ts : List String) (mn mx : Nat) :
    validate_summary ts mn mx =
      { valid := (summaryCountErrors ts.length mn mx ++
          ((ts.enumFrom 1).map (fun p => (takeawayChecks p.1 p.2).1)).flatten).isEmpty
        errors := summaryCountErrors ts.length mn mx ++
          ((ts.enumFrom 1).map (fun p => (takeawayChecks p.1 p.2).1)).flatten
        warnings := ((ts.enumFrom 1).map (fun p => (takeawayChecks p.1 p.2).2)).flatten
        metrics := [("takeaway_count", (ts.length : Int))] } := by
  unfold validate_summary
  rw [foldl_pair_append (fun p => takeawayChecks p.1 p.2) (ts.enumFrom 1) [] []]
  simp

/-- Decomposition of `validate_quiz`: the accumulating loop equals the
concatenation of the independent per-question check outputs. -/
theorem validate_quiz_eq (qs : List QuizQuestion) (mn mx : Nat) :
    validate_quiz qs mn mx =
      { valid := (quizCountErrors qs.length mn mx ++
          ((qs.enumFrom 1).map (fun p => (questionChecks p.1 p.2).1)).flatten).isEmpty
        errors := quizCountErrors qs.length mn mx ++
          ((qs.enumFrom 1).map (fun p => (questionChecks p.1 p.2).1)).flatten
        warnings := ((qs.enumFrom 1).map (fun p => (questionChecks p.1 p.2).2)).flatten ++
          (if (qs.map (fun q => q.question_text.getD "")).length ≠
              (qs.map (fun q => q.question_text.getD "")).dedup.length then
            ["Duplicate questions detected"] else [])
        metrics := [("question_count", (qs.length : Int))] } := by
  unfold validate_quiz
  rw [foldl_pair_append (fun p => questionChecks p.1 p.2) (qs.enumFrom 1) [] []]
  simp

theorem flatten_nil_of_forall {α : Type} :
    ∀ {L : List (List α)}, (∀ x ∈ L, x = []) → L.flatten = []
  | [], _ => rfl
  | x :: L, h => by
    rw [List.flatten_cons, h x (by simp), flatten_nil_of_forall (fun y hy => h y (by simp [hy]))]
    rfl

theorem isEmpty_false_of_mem {α : Type} {l : List α} {x : α} (h : x ∈ l) : l.isEmpty = false := by
  cases l
  · cases h
  · rfl

theorem summaryCountErrors_nil {n : Nat} (h3 : 3 ≤ n) (h5 : n ≤ 5) :
    summaryCountErrors n 3 5 = [] := by
  unfold summaryCountErrors
  rw [if_neg (by omega), if_neg (by omega)]

theorem takeawayChecks_errors_nil (i : Nat) (t : String) (hb : isBlank t = false)
    (hl : 50 ≤ t.length) : (takeawayChecks i t).1 = [] := by
  unfold takeawayChecks
  simp only
  rw [if_neg (by omega), if_neg (by simp [hb])]
  rfl

/-- Claim C8: a 3-to-5 element list of non-blank takeaways each at least 50
characters long validates; a 2-element list is invalid with a "too few"
error; any 40-character takeaway makes the result invalid with a "too
short" error; a 160-character takeaway among otherwise conforming ones
keeps the result valid but adds a "too long" warning. -/
theorem summary_validator_cases :
    (∀ ts : List String, 3 ≤ ts.length → ts.length ≤ 5 →
        (∀ t ∈ ts, isBlank t = false ∧ 50 ≤ t.length) →
        (validate_summary ts 3 5).valid = true) ∧
    (∀ ts : List String, ts.length = 2 →
        (validate_summary ts 3 5).valid = false ∧
        "Too few takeaways: 2 (minimum 3)" ∈ (validate_summary ts 3 5).errors) ∧
    (∀ (ts : List String) (i : Nat) (t : String), ts.get? i = some t → t.length = 40 →
        (validate_summary ts 3 5).valid = false ∧
        ("Takeaway " ++ toString (1 + i) ++ " too short: 40 chars (minimum 50)") ∈
          (validate_summary ts 3 5).errors) ∧
    (∀ (ts : List String) (i : Nat) (t : String), ts.get? i = some t → t.length = 160 →
        3 ≤ ts.length → ts.length ≤ 5 → (∀ u ∈ ts, isBlank u = false ∧ 50 ≤ u.length) →
        (validate_summary ts 3 5).valid = true ∧
        ("Takeaway " ++ toString (1 + i) ++ " too long: 160 chars (recommended max 150)") ∈
          (validate_summary ts 3 5).warnings) := by
  have flatten_part_nil : ∀ (ts : List String), (∀ t ∈ ts, isBlank t = false ∧ 50 ≤ t.length) →
      ((ts.enumFrom 1).map (fun p => (takeawayChecks p.1 p.2).1)).flatten = [] := by
    intro ts hall
    apply flatten_nil_of_forall
    intro x hx
    obtain ⟨p, hp, rfl⟩ := List.mem_map.mp hx
    have hmem := mem_enumFrom_snd ts 1 p hp
    exact takeawayChecks_errors_nil p.1 p.2 (hall p.2 hmem).1 (hall p.2 hmem).2
  refine ⟨?_, ?_, ?_, ?_⟩
  · intro ts h3 h5 hall
    rw [validate_summary_eq]
    show (summaryCountErrors ts.length 3 5 ++ _).isEmpty = true
    rw [summaryCountErrors_nil h3 h5, List.nil_append, flatten_part_nil ts hall]
    rfl
  · intro ts h2
    rw [validate_summary_eq]
    have hmsg : summaryCountErrors ts.length 3 5 = ["Too few takeaways: 2 (minimum 3)"] := by
      rw [h2]
      decide
    constructor
    · show (summaryCountErrors ts.length 3 5 ++ _).isEmpty = false
      rw [hmsg]
      rfl
    · show _ ∈ summaryCountErrors ts.length 3 5 ++ _
      rw [hmsg]
      exact List.mem_append_left _ (by simp)
  · intro ts i t hget hlen
    rw [validate_summary_eq]
    have hmem : ("Takeaway " ++ toString (1 + i) ++ " too short: 40 chars (minimum 50)") ∈
        ((ts.enumFrom 1).map (fun p => (takeawayChecks p.1 p.2).1)).flatten := by
      apply List.mem_flatten.mpr
      refine ⟨(takeawayChecks (1 + i) t).1, ?_, ?_⟩
      · exact List.mem_map_of_mem _ (get?_mem_enumFrom ts 1 i t hget)
      · unfold takeawayChecks
        simp only
        rw [hlen, if_pos (by omega)]
        apply List.mem_append_left
        have : "Takeaway " ++ toString (1 + i) ++ " too short: " ++ toString (40 : Nat) ++
            " chars (minimum 50)" =
            "Takeaway " ++ toString (1 + i) ++ " too short: 40 chars (minimum 50)" := by
          simp only [String.append_assoc]
          exact congrArg (fun z => "Takeaway " ++ z)
            (congrArg (fun z => toString (1 + i) ++ z) (by decide))
        rw [this]
        simp
    refine ⟨?_, List.mem_append_right _ hmem⟩
    exact isEmpty_false_of_mem (List.mem_append_right _ hmem)
  · intro ts i t hget hlen h3 h5 hall
    rw [validate_summary_eq]
    constructor
    · show (summaryCountErrors ts.length 3 5 ++ _).isEmpty = true
      rw [summaryCountErrors_nil h3 h5, List.nil_append, flatten_part_nil ts hall]
      rfl
    · show _ ∈ ((ts.enumFrom 1).map (fun p => (takeawayChecks p.1 p.2).2)).flatten
      apply List.mem_flatten.mpr
      refine ⟨(takeawayChecks (1 + i) t).2, ?_, ?_⟩
      · exact List.mem_map_of_mem _ (get?_mem_enumFrom ts 1 i t hget)
      · unfold takeawayChecks
        simp only
        rw [hlen, if_neg (by omega), if_pos (by omega)]
        have : "Takeaway " ++ toString (1 + i) ++ " too long: " ++ toString (160 : Nat) ++
            " chars (recommended max 150)" =
            "Takeaway " ++ toString (1 + i) ++ " too long: 160 chars (recommended max 150)" := by
          simp only [String.append_assoc]
          exact congrArg (fun z => "Takeaway " ++ z)
            (congrArg (fun z => toString (1 + i) ++ z) (by decide))
        rw [this]
        simp

/-- Sample takeaways for evaluating the summary validator (57, 59, 59, 40
and 160 characters respectively). -/
def tkA : String := "Robots combine sensing and actuation to act in the world."

def tkB : String := "Control loops keep humanoid joints stable under load daily."

def tkC : String := "Simulation lets engineers test robot policies safely first."

def tkShort : String := "Robots sense and act in the real world.."

def tkLong : String :=
  "Humanoid robotics integrates perception, planning, and control so that machines can move through many human environments and manipulate objects safely all days."

set_option maxRecDepth 4096 in
theorem summary_validator_cases_witness :
    (validate_summary [tkA, tkB, tkC] 3 5).valid = true ∧
    ((validate_summary [tkA, tkB] 3 5).valid = false ∧
      "Too few takeaways: 2 (minimum 3)" ∈ (validate_summary [tkA, tkB] 3 5).errors) ∧
    ((validate_summary [tkA, tkB, tkShort] 3 5).valid = false ∧
      ("Takeaway " ++ toString (1 + 2) ++ " too short: 40 chars (minimum 50)") ∈
        (validate_summary [tkA, tkB, tkShort] 3 5).errors) ∧
    ((validate_summary [tkA, tkB, tkLong] 3 5).valid = true ∧
      ("Takeaway " ++ toString (1 + 2) ++ " too long: 160 chars (recommended max 150)") ∈
        (validate_summary [tkA, tkB, tkLong] 3 5).warnings) :=
  ⟨summary_validator_cases.1 [tkA, tkB, tkC] (by decide) (by decide) (by decide),
   summary_validator_cases.2.1 [tkA, tkB] (by decide),
   summary_validator_cases.2.2.1 [tkA, tkB, tkShort] 2 tkShort (by decide) (by decide),
   summary_validator_cases.2.2.2 [tkA, tkB, tkLong] 2 tkLong (by decide) (by decide)
     (by decide) (by decide) (by decide)⟩

/-- Claim C3, counterexample: in `validate_quiz`, a question missing
`question_text` but carrying 3 options and `correct_index = 5` reports ONLY
the missing-field error (plus the question-count error) — the option-count
and index-range findings the claim promises are absent, because the
missing-field branch `continue`s past them. -/
theorem validate_quiz_missing_field_counterexample :
    (validate_quiz [⟨none, some ["A", "B", "C"], some 5, none⟩] 5 7).errors =
      ["Too few questions: 1 (minimum 5)", "Question 1: missing 'question_text' field"] ∧
    "Question 1: must have exactly 4 options (got 3)" ∉
      (validate_quiz [⟨none, some ["A", "B", "C"], some 5, none⟩] 5 7).errors ∧
    "Question 1: correct_index must be 0-3 (got 5)" ∉
      (validate_quiz [⟨none, some ["A", "B", "C"], some 5, none⟩] 5 7).errors := by
  decide

/-- Claim C3, amended: the chapter, summary and booster validators aggregate
independent checks (their error list is the concatenation of each check's
own output), and `validate_quiz` aggregates the count check and independent
per-question contributions — but within one question, a missing required
field (checked in the order `question_text`, `options`, `correct_index`)
reports only that first missing field and skips the question's remaining
checks; when the three required fields are present, a wrong option count is
always reported, independent of every other check. -/
theorem validator_checks_independent :
    (∀ content : String, (validate_chapter content).errors =
        validateMarkdownSyntaxErrors content ++ validateStructureErrors content ++
        validateWordCountErrors ((countWordsValidator content : Int)) ++
        validateReadingTimeErrors (calculateReadingTime (countWordsValidator content))) ∧
    (∀ (ts : List String) (mn mx : Nat), (validate_summary ts mn mx).errors =
        summaryCountErrors ts.length mn mx ++
        ((ts.enumFrom 1).map (fun p => (takeawayChecks p.1 p.2).1)).flatten) ∧
    (∀ (c t : String) (mn mx : Nat), (validate_learning_booster c t mn mx).errors =
        (if c.length < mn then
          ["Booster too short: " ++ toString c.length ++ " chars (minimum " ++ toString mn ++ ")"]
         else if mx < c.length then
          ["Booster too long: " ++ toString c.length ++ " chars (maximum " ++ toString mx ++ ")"]
         else []) ++
        (if t ≠ "analogy" ∧ t ≠ "example" ∧ t ≠ "explanation" then
          ["Invalid booster type: '" ++ t ++ "' (valid: ['analogy', 'example', 'explanation'])"]
         else []) ++
        (if isBlank c then ["Booster content is empty"] else [])) ∧
    (∀ (qs : List QuizQuestion) (mn mx : Nat), (validate_quiz qs mn mx).errors =
        quizCountErrors qs.length mn mx ++
        ((qs.enumFrom 1).map (fun p => (questionChecks p.1 p.2).1)).flatten) ∧
    (∀ (i : Nat) (q : QuizQuestion), q.question_text = none →
        (questionChecks i q).1 = ["Question " ++ toString i ++ ": missing 'question_text' field"]) ∧
    (∀ (qs : List QuizQuestion) (mn mx i : Nat) (q : QuizQuestion)
        (qt : String) (opts : List String) (ci : Int),
        qs.get? i = some q → q.question_text = some qt → q.options = some opts →
        q.correct_index = some ci → opts.length = 3 →
        ("Question " ++ toString (1 + i) ++ ": must have exactly 4 options (got 3)") ∈
          (validate_quiz qs mn mx).errors) := by
  refine ⟨fun _ => rfl, ?_, fun _ _ _ _ => rfl, ?_, ?_, ?_⟩
  · intro ts mn mx
    rw [validate_summary_eq]
  · intro qs mn mx
    rw [validate_quiz_eq]
  · intro i q hq
    unfold questionChecks
    rw [hq]
  · intro qs mn mx i q qt opts ci hget hqt hopts hci hlen
    rw [validate_quiz_eq]
    show _ ∈ quizCountErrors qs.length mn mx ++ _
    apply List.mem_append_right
    apply List.mem_flatten.mpr
    refine ⟨(questionChecks (1 + i) q).1, List.mem_map_of_mem _ (get?_mem_enumFrom qs 1 i q hget), ?_⟩
    unfold questionChecks
    rw [hqt, hopts, hci]
    simp only
    rw [hlen, if_pos (by omega)]
    apply List.mem_append_left
    apply List.mem_append_left
    apply List.mem_append_left
    have : "Question " ++ toString (1 + i) ++ ": must have exactly 4 options (got " ++
        toString (3 : Nat) ++ ")" =
        "Question " ++ toString (1 + i) ++ ": must have exactly 4 options (got 3)" := by
      simp only [String.append_assoc]
      exact congrArg (fun z => "Question " ++ z)
        (congrArg (fun z => toString (1 + i) ++ z) (by decide))
    rw [this]
    simp

theorem validator_checks_independent_witness :
    (questionChecks 1 ⟨none, some ["A"], some 0, none⟩).1 =
      ["Question 1: missing 'question_text' field"] ∧
    ("Question " ++ toString (1 + 0) ++ ": must have exactly 4 options (got 3)") ∈
      (validate_quiz [⟨some "Q?", some ["A", "B", "C"], some 9, some "weird"⟩] 5 7).errors :=
  ⟨validator_checks_independent.2.2.2.2.1 1 ⟨none, some ["A"], some 0, none⟩ rfl,
   validator_checks_independent.2.2.2.2.2
     [⟨some "Q?", some ["A", "B", "C"], some 9, some "weird"⟩] 5 7 0
     ⟨some "Q?", some ["A", "B", "C"], some 9, some "weird"⟩ "Q?" ["A", "B", "C"] 9
     rfl rfl rfl rfl rfl⟩

/-! ## C7: word-count errors -/

/-- Character-list prefix test (executable, self-contained). -/
def listStartsWith : List Char → List Char → Bool
  | [], _ => true
  | _ :: _, [] => false
  | a :: as, b :: bs => a = b && listStartsWith as bs

/-- `s` begins with `p`; the formalization of "an error mentioning the word
count" is an error string beginning with "Word count", the prefix of both
messages `_validate_word_count` can produce (and of no other validator
message). -/
def strStartsWith (p s : String) : Bool := listStartsWith p.data s.data

theorem str_data_append (a b : String) : (a ++ b).data = a.data ++ b.data := by
  cases a
  cases b
  rfl

theorem listStartsWith_append_left :
    ∀ (p q r : List Char), listStartsWith p q = true → listStartsWith p (q ++ r) = true
  | [], _, _, _ => rfl
  | _ :: _, [], _, h => by cases h
  | a :: as, b :: bs, r, h => by
    simp only [listStartsWith, Bool.and_eq_true] at h ⊢
    exact ⟨h.1, listStartsWith_append_left as bs r h.2⟩

theorem listStartsWith_append_of_le :
    ∀ (p q r : List Char), p.length ≤ q.length →
      listStartsWith p (q ++ r) = listStartsWith p q
  | [], _, _, _ => rfl
  | a :: as, [], r, h => by simp at h
  | a :: as, b :: bs, r, h => by
    show (decide (a = b) && listStartsWith as (bs ++ r)) =
      (decide (a = b) && listStartsWith as bs)
    rw [listStartsWith_append_of_le as bs r (by simpa using h)]

/-- Every message of `_validate_word_count` begins with "Word count". -/
theorem wordCountErrors_start (wc : Int) :
    ∀ e ∈ validateWordCountErrors wc, strStartsWith "Word count" e = true := by
  intro e he
  unfold validateWordCountErrors at he
  have hlow : strStartsWith "Word count"
      ("Word count too low: " ++ toString wc ++ " (minimum 800)") = true := by
    unfold strStartsWith
    rw [str_data_append, str_data_append, List.append_assoc]
    exact listStartsWith_append_left _ _ _ (by decide)
  have hhigh : strStartsWith "Word count"
      ("Word count too high: " ++ toString wc ++ " (maximum 1200)") = true := by
    unfold strStartsWith
    rw [str_data_append, str_data_append, List.append_assoc]
    exact listStartsWith_append_left _ _ _ (by decide)
  by_cases h1 : wc < 800
  · rw [if_pos h1] at he
    simp only [List.mem_singleton] at he
    rw [he]
    exact hlow
  · rw [if_neg h1] at he
    by_cases h2 : 1200 < wc
    · rw [if_pos h2] at he
      simp only [List.mem_singleton] at he
      rw [he]
      exact hhigh
    · rw [if_neg h2] at he
      cases he

/-- No syntax, structure or reading-time message begins with "Word count". -/
theorem syntaxErrors_no_wc (content : String) :
    ∀ e ∈ validateMarkdownSyntaxErrors content, strStartsWith "Word count" e = false := by
  intro e he
  unfold validateMarkdownSyntaxErrors at he
  by_cases h : isBlank content
  · rw [if_pos h] at he
    simp only [List.mem_singleton] at he
    rw [he]
    decide
  · rw [if_neg h] at he
    cases he

theorem structureErrors_no_wc (content : String) :
    ∀ e ∈ validateStructureErrors content, strStartsWith "Word count" e = false := by
  intro e he
  unfold validateStructureErrors at he
  simp only [List.mem_append] at he
  rcases he with he | he
  · split at he
    · simp only [List.mem_singleton] at he
      rw [he]
      decide
    · split at he
      · simp only [List.mem_singleton] at he
        rw [he]
        unfold strStartsWith
        rw [str_data_append, str_data_append, List.append_assoc,
          listStartsWith_append_of_le _ _ _ (by decide)]
        decide
      · cases he
  · split at he
    · simp only [List.mem_singleton] at he
      rw [he]
      decide
    · cases he

theorem readingTimeErrors_no_wc (rt : Nat) :
    ∀ e ∈ validateReadingTimeErrors rt, strStartsWith "Word count" e = false := by
  intro e he
  unfold validateReadingTimeErrors at he
  split at he
  · simp only [List.mem_singleton] at he
    rw [he]
    unfold strStartsWith
    rw [str_data_append, str_data_append, List.append_assoc,
      listStartsWith_append_of_le _ _ _ (by decide)]
    decide
  · split at he
    · simp only [List.mem_singleton] at he
      rw [he]
      unfold strStartsWith
      rw [str_data_append, str_data_append, List.append_assoc,
        listStartsWith_append_of_le _ _ _ (by decide)]
      decide
    · cases he

/-- Claim C7: a word count outside [800, 1200] always produces a word-count
error (and `validate_chapter` then carries an error beginning with
"Word count"); a count inside the range never does, and no other check's
message mentions the word count. -/
theorem word_count_error_iff :
    (∀ wc : Int, (wc < 800 ∨ 1200 < wc) ↔ validateWordCountErrors wc ≠ []) ∧
    (∀ wc : Int, ∀ e ∈ validateWordCountErrors wc, strStartsWith "Word count" e = true) ∧
    (∀ content : String,
        (countWordsValidator content < 800 ∨ 1200 < countWordsValidator content) →
        ∃ e ∈ (validate_chapter content).errors, strStartsWith "Word count" e = true) ∧
    (∀ content : String,
        800 ≤ countWordsValidator content → countWordsValidator content ≤ 1200 →
        ∀ e ∈ (validate_chapter content).errors, strStartsWith "Word count" e = false) := by
  refine ⟨?_, wordCountErrors_start, ?_, ?_⟩
  · intro wc
    unfold validateWordCountErrors
    constructor
    · intro h
      rcases h with h | h
      · rw [if_pos h]
        simp
      · rw [if_neg (by omega), if_pos h]
        simp
    · intro h
      by_contra hc
      push_neg at hc
      rw [if_neg (by omega), if_neg (by omega)] at h
      exact h rfl
  · intro content hrange
    have hne : validateWordCountErrors ((countWordsValidator content : Int)) ≠ [] := by
      unfold validateWordCountErrors
      rcases hrange with h | h
      · rw [if_pos (by exact_mod_cast h)]
        simp
      · rw [if_neg (by omega), if_pos (by exact_mod_cast h)]
        simp
    obtain ⟨e, he⟩ := List.exists_mem_of_ne_nil _ hne
    refine ⟨e, ?_, wordCountErrors_start _ e he⟩
    show e ∈ validateMarkdownSyntaxErrors content ++ validateStructureErrors content ++
      validateWordCountErrors ((countWordsValidator content : Int)) ++
      validateReadingTimeErrors (calculateReadingTime (countWordsValidator content))
    exact List.mem_append_left _ (List.mem_append_right _ he)
  · intro content hlo hhi e he
    have he2 : e ∈ validateMarkdownSyntaxErrors content ++ validateStructureErrors content ++
        validateWordCountErrors ((countWordsValidator content : Int)) ++
        validateReadingTimeErrors (calculateReadingTime (countWordsValidator content)) := he
    have hwc : validateWordCountErrors ((countWordsValidator content : Int)) = [] := by
      unfold validateWordCountErrors
      rw [if_neg (by exact_mod_cast not_lt.mpr hlo), if_neg (by exact_mod_cast not_lt.mpr hhi)]
    rw [hwc] at he2
    simp only [List.append_nil, List.mem_append] at he2
    rcases he2 with (he2 | he2) | he2
    · exact syntaxErrors_no_wc content e he2
    · exact structureErrors_no_wc content e he2
    · exact readingTimeErrors_no_wc _ e he2

/-! ## Concrete large documents, evaluated by lemmas

Kernel evaluation of 1600-character strings is impractical, so the concrete
800-word documents used as witnesses are built from `List.replicate` and
their word counts computed by induction. -/

/-- `n` repetitions of the two characters "w ": an `n`-word run. -/
def wRun (n : Nat) : List Char := (List.replicate n ['w', ' ']).flatten

theorem wRun_succ (n : Nat) : wRun (n + 1) = 'w' :: ' ' :: wRun n := by
  simp [wRun, List.replicate_succ]

theorem mem_wRun {c : Char} {n : Nat} (h : c ∈ wRun n) : c = 'w' ∨ c = ' ' := by
  simp only [wRun, List.mem_flatten] at h
  obtain ⟨l, hl, hc⟩ := h
  rw [List.eq_of_mem_replicate hl] at hc
  simpa using hc

theorem countTokensGo_wRun : ∀ n : Nat, countTokensGo (wRun n) false = n := by
  intro n
  induction n with
  | zero => rfl
  | succ n ih =>
    rw [wRun_succ]
    show (if ('w' : Char).isWhitespace then _ else (1 + countTokensGo (' ' :: wRun n) true)) = _
    rw [if_neg (by decide)]
    show 1 + (if (' ' : Char).isWhitespace then countTokensGo (wRun n) false else _) = n + 1
    rw [if_pos (by decide), ih]
    omega

theorem splitAtFence_none : ∀ (cs : List Char), (∀ c ∈ cs, c ≠ '`') → splitAtFence cs = none
  | [], _ => rfl
  | c :: cs, h => by
    unfold splitAtFence
    rw [if_neg (by simp [h c (by simp)])]
    rw [splitAtFence_none cs (fun d hd => h d (by simp [hd]))]

theorem stripFenced_id (cs : List Char) (h : ∀ c ∈ cs, c ≠ '`') : stripFenced cs = cs := by
  unfold stripFenced
  cases hl : cs.length with
  | zero => rfl
  | succ m =>
    unfold stripFencedGo
    rw [splitAtFence_none cs h]

theorem stripInlineGo_id :
    ∀ (fuel : Nat) (cs : List Char), (∀ c ∈ cs, c ≠ '`') → stripInlineGo fuel cs = cs
  | 0, _, _ => rfl
  | _ + 1, [], _ => rfl
  | fuel + 1, c :: cs, h => by
    unfold stripInlineGo
    rw [if_neg (h c (by simp))]
    rw [stripInlineGo_id fuel cs (fun d hd => h d (by simp [hd]))]

theorem stripInline_id (cs : List Char) (h : ∀ c ∈ cs, c ≠ '`') : stripInline cs = cs :=
  stripInlineGo_id cs.length cs h

theorem countTokensGo_cons (c : Char) (cs : List Char) (b : Bool) :
    countTokensGo (c :: cs) b =
      if c.isWhitespace = true then countTokensGo cs false
      else (if b = true then 0 else 1) + countTokensGo cs true := rfl

theorem countTokensGo_append_ws :
    ∀ (xs ys : List Char) (b : Bool), xs ≠ [] →
      (∀ d, xs.getLast? = some d → d.isWhitespace = true) →
      countTokensGo (xs ++ ys) b = countTokensGo xs b + countTokensGo ys false
  | [], _, _, hne, _ => absurd rfl hne
  | [c], ys, b, _, hws => by
    have hc : c.isWhitespace = true := hws c rfl
    show countTokensGo (c :: ys) b = countTokensGo [c] b + countTokensGo ys false
    rw [countTokensGo_cons, countTokensGo_cons, if_pos hc, if_pos hc]
    show countTokensGo ys false = countTokensGo [] false + countTokensGo ys false
    show countTokensGo ys false = 0 + countTokensGo ys false
    omega
  | c :: d :: xs, ys, b, _, hws => by
    have hlast : ∀ e, (d :: xs).getLast? = some e → e.isWhitespace = true := by
      intro e he
      exact hws e (by rw [List.getLast?_cons_cons] ; exact he)
    have ih := countTokensGo_append_ws (d :: xs) ys
    show countTokensGo (c :: (d :: xs ++ ys)) b =
      countTokensGo (c :: d :: xs) b + countTokensGo ys false
    rw [countTokensGo_cons c (d :: xs ++ ys) b, countTokensGo_cons c (d :: xs) b]
    by_cases hc : c.isWhitespace = true
    · rw [if_pos hc, if_pos hc, ih false (by simp) hlast]
    · rw [if_neg hc, if_neg hc, ih true (by simp) hlast]
      omega

/-- The markdown header prefix "# T\n## S\n" as a character list. -/
def preChapter : List Char := ['#', ' ', 'T', '\n', '#', '#', ' ', 'S', '\n']

/-- A well-structured markdown document with one H1, one H2 and `2 + n`
validator-counted words. -/
def chapterDoc (n : Nat) : String := ⟨preChapter ++ wRun n⟩

theorem chapterDoc_data (n : Nat) : (chapterDoc n).data = preChapter ++ wRun n := rfl

theorem chapterDoc_no_tick (n : Nat) : ∀ c ∈ (chapterDoc n).data, c ≠ '`' := by
  rw [chapterDoc_data]
  intro c hc
  rcases List.mem_append.mp hc with h | h
  · have hall : ∀ d ∈ preChapter, d ≠ '`' := by decide
    exact hall c h
  · rcases mem_wRun h with rfl | rfl <;> decide

theorem countWordsValidator_chapterDoc (n : Nat) :
    countWordsValidator (chapterDoc n) = 2 + n := by
  unfold countWordsValidator
  rw [stripFenced_id _ (chapterDoc_no_tick n), stripInline_id _ (chapterDoc_no_tick n)]
  rw [chapterDoc_data, List.filter_append]
  have hpre : preChapter.filter (fun c => ¬ isMdSpecial c) = [' ', 'T', '\n', ' ', 'S', '\n'] := by
    decide
  have hw : (wRun n).filter (fun c => ¬ isMdSpecial c) = wRun n := by
    apply List.filter_eq_self.mpr
    intro a ha
    rcases mem_wRun ha with rfl | rfl <;> decide
  rw [hpre, hw]
  unfold countTokens
  rw [countTokensGo_append_ws _ _ _ (by simp) (by decide), countTokensGo_wRun]
  have hsmall : countTokensGo [' ', 'T', '\n', ' ', 'S', '\n'] false = 2 := by decide
  omega

theorem splitLines_no_newline :
    ∀ (cs : List Char), (∀ c ∈ cs, c ≠ '\n') → splitLines cs = [cs]
  | [], _ => rfl
  | c :: cs, h => by
    unfold splitLines
    rw [if_neg (h c (by simp)), splitLines_no_newline cs (fun d hd => h d (by simp [hd]))]

theorem splitLines_chapterDoc (n : Nat) :
    splitLines (chapterDoc n).data = [['#', ' ', 'T'], ['#', '#', ' ', 'S'], wRun n] := by
  have h : splitLines (wRun n) = [wRun n] :=
    splitLines_no_newline _ (fun c hc => by rcases mem_wRun hc with rfl | rfl <;> decide)
  rw [chapterDoc_data]
  show splitLines ('#' :: ' ' :: 'T' :: '\n' :: '#' :: '#' :: ' ' :: 'S' :: '\n' :: wRun n) = _
  simp [splitLines, h]

theorem isH1Line_wRun (n : Nat) : isH1Line (wRun n) = false := by
  cases n with
  | zero => rfl
  | succ m =>
    rw [wRun_succ]
    cases hm : wRun m with
    | nil => rfl
    | cons c cs => rfl

theorem isH2Line_wRun (n : Nat) : isH2Line (wRun n) = false := by
  cases n with
  | zero => rfl
  | succ m =>
    rw [wRun_succ]
    cases hm : wRun m with
    | nil => rfl
    | cons c cs => rfl

theorem validateStructureErrors_chapterDoc (n : Nat) :
    validateStructureErrors (chapterDoc n) = [] := by
  unfold validateStructureErrors
  rw [splitLines_chapterDoc]
  have e1 : isH1Line ['#', ' ', 'T'] = true := by decide
  have e2 : isH1Line ['#', '#', ' ', 'S'] = false := by decide
  have e3 : isH2Line ['#', ' ', 'T'] = false := by decide
  have e4 : isH2Line ['#', '#', ' ', 'S'] = true := by decide
  simp [List.filter_cons, e1, e2, e3, e4, isH1Line_wRun n, isH2Line_wRun n]

/-- Claim C9: on any document passing the structure checks whose
validator-counted word count lies in [800, 900], the derived reading time
`round(word_count / 200)` is 4 (Python's `round` takes 4.5 to 4), below the
5-minute minimum — so `validate_chapter` reports it invalid even though the
word count itself is acceptable. -/
theorem reading_time_blocks_low_range (content : String)
    (_hstruct : validateStructureErrors content = [])
    (hlo : 800 ≤ countWordsValidator content) (hhi : countWordsValidator content ≤ 900) :
    calculateReadingTime (countWordsValidator content) = 4 ∧
    (validate_chapter content).valid = false := by
  have hrt : calculateReadingTime (countWordsValidator content) = 4 := by
    unfold calculateReadingTime
    have hq : countWordsValidator content / 200 = 4 := by omega
    by_cases h1 : countWordsValidator content % 200 < 100
    · rw [if_pos h1, hq]
    · rw [if_neg h1]
      have h2 : countWordsValidator content % 200 = 100 := by omega
      rw [if_pos h2, hq]
      rfl
  refine ⟨hrt, ?_⟩
  show (validateMarkdownSyntaxErrors content ++ validateStructureErrors content ++
    validateWordCountErrors ((countWordsValidator content : Int)) ++
    validateReadingTimeErrors (calculateReadingTime (countWordsValidator content))).isEmpty
      = false
  rw [hrt]
  exact isEmpty_false_of_mem (List.mem_append_right _
    (show "Reading time too short: 4 min (minimum 5)" ∈ validateReadingTimeErrors 4 by decide))

set_option maxRecDepth 2048 in
theorem reading_time_blocks_low_range_witness :
    validateStructureErrors (chapterDoc 798) = [] ∧
    800 ≤ countWordsValidator (chapterDoc 798) ∧ countWordsValidator (chapterDoc 798) ≤ 900 ∧
    (calculateReadingTime (countWordsValidator (chapterDoc 798)) = 4 ∧
      (validate_chapter (chapterDoc 798)).valid = false) :=
  ⟨validateStructureErrors_chapterDoc 798,
   by have h := countWordsValidator_chapterDoc 798 ; omega ,
   by have h := countWordsValidator_chapterDoc 798 ; omega ,
   reading_time_blocks_low_range (chapterDoc 798) (validateStructureErrors_chapterDoc 798)
     (by have h := countWordsValidator_chapterDoc 798 ; omega)
     (by have h := countWordsValidator_chapterDoc 798 ; omega)⟩

set_option maxRecDepth 2048 in
theorem word_count_error_iff_witness :
    (((1 : Int) < 800 ∨ 1200 < (1 : Int)) ↔ validateWordCountErrors 1 ≠ []) ∧
    strStartsWith "Word count" "Word count too low: 1 (minimum 800)" = true ∧
    strStartsWith "Word count" "Reading time too short: 4 min (minimum 5)" = false :=
  ⟨word_count_error_iff.1 1,
   word_count_error_iff.2.1 1 "Word count too low: 1 (minimum 800)" (by decide),
   word_count_error_iff.2.2.2 (chapterDoc 798)
     (by have h := countWordsValidator_chapterDoc 798 ; omega)
     (by have h := countWordsValidator_chapterDoc 798 ; omega)
     "Reading time too short: 4 min (minimum 5)"
     (by
       show _ ∈ validateMarkdownSyntaxErrors (chapterDoc 798) ++
         validateStructureErrors (chapterDoc 798) ++
         validateWordCountErrors ((countWordsValidator (chapterDoc 798) : Int)) ++
         validateReadingTimeErrors (calculateReadingTime (countWordsValidator (chapterDoc 798)))
       apply List.mem_append_right
       rw [countWordsValidator_chapterDoc 798]
       decide)⟩

theorem llmGenerateGo_rateLimit :
    ∀ (pre rest : List ProviderResponse) (maxR attempt calls tokens : Nat),
      attempt + pre.length = maxR → pre ≠ [] →
      (∀ r ∈ pre, ∃ m, r = ProviderResponse.rateLimit m) →
      llmGenerateGo maxR attempt (pre ++ rest) calls tokens =
        (Except.error ("Rate limit exceeded after " ++ toString maxR ++ " attempts"),
         calls + pre.length, tokens)
  | [], _, _, _, _, _, _, hne, _ => absurd rfl hne
  | [r], rest, maxR, attempt, calls, tokens, hlen, _, hall => by
    obtain ⟨m, rfl⟩ := hall r (by simp)
    simp only [List.length_cons, List.length_nil] at hlen
    unfold llmGenerateGo
    rw [if_pos (by omega)]
    show (if attempt < maxR - 1 then _ else _) = _
    rw [if_neg (by omega)]
    rfl
  | r :: r2 :: pre, rest, maxR, attempt, calls, tokens, hlen, _, hall => by
    obtain ⟨m, rfl⟩ := hall r (by simp)
    simp only [List.length_cons] at hlen
    unfold llmGenerateGo
    rw [if_pos (by omega)]
    show (if attempt < maxR - 1 then _ else _) = _
    rw [if_pos (by omega)]
    rw [show (r2 :: pre).append rest = (r2 :: pre) ++ rest from rfl,
      llmGenerateGo_rateLimit (r2 :: pre) rest maxR (attempt + 1) (calls + 1) tokens
      (by simp only [List.length_cons] ; omega) (by simp)
      (fun x hx => hall x (by simp [hx]))]
    simp only [Prod.mk.injEq, List.length_cons]
    exact ⟨trivial, by omega, trivial⟩

/-- Claim C4: the full-jitter backoff for 0-indexed attempt `k` always lies
in [0, base_delay * 2 ^ k]; and when the first `max_retries` provider calls
all raise a rate-limit error, `generate` raises `GenerationError` after
exactly `max_retries` calls — the remaining responses are never consumed. -/
theorem llm_backoff_and_rate_limit :
    (∀ (d u : ℚ) (k : Nat), 0 ≤ d → 0 ≤ u → u ≤ 1 →
        0 ≤ calculateBackoff d k u ∧ calculateBackoff d k u ≤ d * 2 ^ k) ∧
    (∀ (maxR : Nat) (pre rest : List ProviderResponse), 0 < maxR → pre.length = maxR →
        (∀ r ∈ pre, ∃ m, r = ProviderResponse.rateLimit m) →
        llmGenerate maxR (pre ++ rest) =
          (Except.error ("Rate limit exceeded after " ++ toString maxR ++ " attempts"),
           maxR, 0)) := by
  constructor
  · intro d u k hd hu hu1
    constructor
    · exact mul_nonneg hu (mul_nonneg hd (by positivity))
    · calc u * (d * 2 ^ k) ≤ 1 * (d * 2 ^ k) :=
          mul_le_mul_of_nonneg_right hu1 (by positivity)
      _ = d * 2 ^ k := one_mul _
  · intro maxR pre rest h0 hlen hall
    unfold llmGenerate
    rw [llmGenerateGo_rateLimit pre rest maxR 0 0 0 (by omega)
      (List.length_pos.mp (by omega)) hall]
    rw [hlen]
    simp only [Prod.mk.injEq]
    exact ⟨trivial, by omega, trivial⟩

theorem llm_backoff_and_rate_limit_witness :
    (0 ≤ calculateBackoff 5 2 (1 / 2) ∧ calculateBackoff 5 2 (1 / 2) ≤ 5 * 2 ^ 2) ∧
    llmGenerate 3 (List.replicate 3 (ProviderResponse.rateLimit "429") ++
        [ProviderResponse.success "text" "model" 3 4 "end_turn"]) =
      (Except.error ("Rate limit exceeded after " ++ toString 3 ++ " attempts"), 3, 0) :=
  ⟨llm_backoff_and_rate_limit.1 5 (1 / 2) 2 (by norm_num) (by norm_num) (by norm_num),
   llm_backoff_and_rate_limit.2 3 (List.replicate 3 (ProviderResponse.rateLimit "429"))
     [ProviderResponse.success "text" "model" 3 4 "end_turn"] (by norm_num) (by simp)
     (fun r hr => ⟨"429", List.eq_of_mem_replicate hr⟩)⟩

theorem generateChapterGo_good_after_bad :
    ∀ (pre : List GenerationResult) (maxA number target attempt : Nat) (title prompt : String)
      (r : GenerationResult) (rest : List LLMCallOutcome),
      attempt + pre.length ≤ maxA →
      (∀ x ∈ pre, isWordCountValid (countWordsChapter x.content) = false) →
      isWordCountValid (countWordsChapter r.content) = true →
      generateChapterGo maxA true number title target prompt attempt
          (pre.map Except.ok ++ Except.ok r :: rest) =
        Except.ok { content := r.content
                    chapter_number := number
                    chapter_title := title
                    word_count := countWordsChapter r.content
                    tokens_used := r.tokens_used
                    model_used := r.model
                    generation_attempts := attempt + pre.length
                    validation_passed := true }
  | [], maxA, number, target, attempt, title, prompt, r, rest, hle, _, hgood => by
    simp only [List.length_nil, Nat.add_zero] at hle ⊢
    unfold generateChapterGo
    rw [if_neg (by omega)]
    show (if true ∧ ¬ isWordCountValid (countWordsChapter r.content) = true ∧ _ then _ else _) = _
    rw [if_neg (by simp [hgood])]
    simp [hgood]
  | x :: pre, maxA, number, target, attempt, title, prompt, r, rest, hle, hbad, hgood => by
    simp only [List.length_cons] at hle
    unfold generateChapterGo
    rw [if_neg (by omega)]
    show (if true ∧ ¬ isWordCountValid (countWordsChapter x.content) = true ∧ _ then _ else _) = _
    rw [if_pos ⟨rfl, by simp [hbad x (by simp)], by omega⟩]
    rw [show (List.map Except.ok pre).append (Except.ok r :: rest) =
      List.map Except.ok pre ++ Except.ok r :: rest from rfl]
    rw [generateChapterGo_good_after_bad pre maxA number target (attempt + 1) title _ r rest
      (by omega) (fun y hy => hbad y (by simp [hy])) hgood]
    simp only [Except.ok.injEq, ChapterGenerationResult.mk.injEq, List.length_cons]
    refine ⟨trivial, trivial, trivial, trivial, trivial, trivial, by omega, trivial⟩

/-- Claim C5: with word-count enforcement on, an out-of-range attempt with
attempts remaining retries with the emphasis addendum appended (telling the
model to expand below 800 words and to trim above 1200); on the final
allowed attempt the chapter is returned with `validation_passed = false`
instead of raising; and when the first `n - 1` attempts are out of range
and attempt `n` lands in range, the result carries
`generation_attempts = n` and `validation_passed = true`. -/
theorem chapter_word_count_retry :
    (∀ (maxA number target attempt : Nat) (title prompt : String)
        (r : GenerationResult) (rest : List LLMCallOutcome),
        attempt < maxA → isWordCountValid (countWordsChapter r.content) = false →
        generateChapterGo maxA true number title target prompt attempt (Except.ok r :: rest) =
          generateChapterGo maxA true number title target
            (addWordCountEmphasis prompt (countWordsChapter r.content) target) (attempt + 1)
            rest) ∧
    (∀ (prompt : String) (wc target : Nat), wc < 800 →
        addWordCountEmphasis prompt wc target =
          prompt ++ "\n\n**CRITICAL**: The previous attempt was too short (" ++ toString wc ++
          " words). You MUST generate at least 800 words. Target is " ++ toString target ++
          " words. Add more depth, examples, and explanations to reach the required length.") ∧
    (∀ (prompt : String) (wc target : Nat), 1200 < wc →
        addWordCountEmphasis prompt wc target =
          prompt ++ "\n\n**CRITICAL**: The previous attempt was too long (" ++ toString wc ++
          " words). You MUST stay under 1200 words. Target is " ++ toString target ++
          " words. Be more concise and focused on core concepts.") ∧
    (∀ (maxA number target : Nat) (title prompt : String)
        (r : GenerationResult) (rest : List LLMCallOutcome), 0 < maxA →
        isWordCountValid (countWordsChapter r.content) = false →
        generateChapterGo maxA true number title target prompt maxA (Except.ok r :: rest) =
          Except.ok { content := r.content
                      chapter_number := number
                      chapter_title := title
                      word_count := countWordsChapter r.content
                      tokens_used := r.tokens_used
                      model_used := r.model
                      generation_attempts := maxA
                      validation_passed := false }) ∧
    (∀ (maxA number target : Nat) (title prompt : String) (pre : List GenerationResult)
        (r : GenerationResult) (rest : List LLMCallOutcome),
        pre.length + 1 ≤ maxA →
        (∀ x ∈ pre, isWordCountValid (countWordsChapter x.content) = false) →
        isWordCountValid (countWordsChapter r.content) = true →
        generate_chapter maxA true number title target prompt
            (pre.map Except.ok ++ Except.ok r :: rest) =
          Except.ok { content := r.content
                      chapter_number := number
                      chapter_title := title
                      word_count := countWordsChapter r.content
                      tokens_used := r.tokens_used
                      model_used := r.model
                      generation_attempts := pre.length + 1
                      validation_passed := true }) := by
  refine ⟨?_, ?_, ?_, ?_, ?_⟩
  · intro maxA number target attempt title prompt r rest hlt hbad
    conv_lhs => unfold generateChapterGo
    rw [if_neg (by omega)]
    show (if true ∧ ¬ isWordCountValid (countWordsChapter r.content) = true ∧ _ then _ else _) = _
    rw [if_pos ⟨rfl, by simp [hbad], hlt⟩]
  · intro prompt wc target h
    unfold addWordCountEmphasis
    rw [if_pos h]
  · intro prompt wc target h
    unfold addWordCountEmphasis
    rw [if_neg (by omega)]
  · intro maxA number target title prompt r rest h0 hbad
    unfold generateChapterGo
    rw [if_neg (by omega)]
    show (if true ∧ ¬ isWordCountValid (countWordsChapter r.content) = true ∧ _ then _ else _) = _
    rw [if_neg (by simp [hbad])]
    simp [hbad]
  · intro maxA number target title prompt pre r rest hle hbad hgood
    unfold generate_chapter
    rw [generateChapterGo_good_after_bad pre maxA number target 1 title prompt r rest
      (by omega) hbad hgood]
    simp only [Except.ok.injEq, ChapterGenerationResult.mk.injEq]
    refine ⟨trivial, trivial, trivial, trivial, trivial, trivial, by omega, trivial⟩

/-- An 800-word chapter body, and a deliberately short one. -/
def goodContent : String := ⟨wRun 800⟩

theorem countWordsChapter_goodContent : countWordsChapter goodContent = 800 :=
  countTokensGo_wRun 800

def badResult : GenerationResult :=
  { content := "too short", model := "m", tokens_used := 5, finish_reason := "end_turn" }

def goodResult : GenerationResult :=
  { content := goodContent, model := "m", tokens_used := 9, finish_reason := "end_turn" }

theorem chapter_word_count_retry_witness :
    (generateChapterGo 3 true 2 "T" 1000 "P" 1 (Except.ok badResult :: []) =
      generateChapterGo 3 true 2 "T" 1000
        (addWordCountEmphasis "P" (countWordsChapter badResult.content) 1000) 2 []) ∧
    (addWordCountEmphasis "P" 100 1000 =
      "P" ++ "\n\n**CRITICAL**: The previous attempt was too short (" ++ toString 100 ++
      " words). You MUST generate at least 800 words. Target is " ++ toString 1000 ++
      " words. Add more depth, examples, and explanations to reach the required length.") ∧
    (addWordCountEmphasis "P" 1500 1000 =
      "P" ++ "\n\n**CRITICAL**: The previous attempt was too long (" ++ toString 1500 ++
      " words). You MUST stay under 1200 words. Target is " ++ toString 1000 ++
      " words. Be more concise and focused on core concepts.") ∧
    (generateChapterGo 3 true 2 "T" 1000 "P" 3 (Except.ok badResult :: []) =
      Except.ok { content := badResult.content
                  chapter_number := 2
                  chapter_title := "T"
                  word_count := countWordsChapter badResult.content
                  tokens_used := badResult.tokens_used
                  model_used := badResult.model
                  generation_attempts := 3
                  validation_passed := false }) ∧
    (generate_chapter 3 true 2 "T" 1000 "P"
        ([badResult, badResult].map Except.ok ++ Except.ok goodResult :: []) =
      Except.ok { content := goodResult.content
                  chapter_number := 2
                  chapter_title := "T"
                  word_count := countWordsChapter goodResult.content
                  tokens_used := goodResult.tokens_used
                  model_used := goodResult.model
                  generation_attempts := [badResult, badResult].length + 1
                  validation_passed := true }) :=
  ⟨chapter_word_count_retry.1 3 2 1000 1 "T" "P" badResult [] (by omega) (by decide),
   chapter_word_count_retry.2.1 "P" 100 1000 (by omega),
   chapter_word_count_retry.2.2.1 "P" 1500 1000 (by omega),
   chapter_word_count_retry.2.2.2.1 3 2 1000 "T" "P" badResult [] (by omega) (by decide),
   chapter_word_count_retry.2.2.2.2 3 2 1000 "T" "P" [badResult, badResult] goodResult []
     (by simp) (by decide)
     (by show isWordCountValid (countWordsChapter goodContent) = true ;
         rw [countWordsChapter_goodContent] ; decide)⟩

theorem runChapterStage_eq :
    ∀ (units : List (Nat × UnitOutcome)) (job : JobState),
      runChapterStage job units =
        { status := job.status
          chapters_completed := job.chapters_completed + okCount (units.map Prod.snd)
          chapters_total := job.chapters_total
          errors := job.errors ++ chapterErrorMessages units
          token_usage := job.token_usage + okTokens (units.map Prod.snd) }
  | [], job => by simp [runChapterStage, okCount, okTokens, chapterErrorMessages]
  | (n, .ok t) :: units, job => by
    show runChapterStage (incrementJobProgress t job) units = _
    rw [runChapterStage_eq units (incrementJobProgress t job)]
    simp only [incrementJobProgress, okCount, okTokens, chapterErrorMessages, List.map_cons,
      List.filter_cons, List.filterMap_cons, List.map_cons, List.sum_cons]
    refine JobState.mk.injEq .. ▸ ?_
    exact ⟨rfl, by simp [okCount] ; omega, rfl, rfl, by simp [okTokens] ; omega⟩
  | (n, .exn msg) :: units, job => by
    show runChapterStage
      (addJobError ("Failed to generate chapter " ++ toString n ++ ": " ++ msg) job) units = _
    rw [runChapterStage_eq units _]
    simp only [addJobError, okCount, okTokens, chapterErrorMessages, List.map_cons,
      List.filter_cons, List.filterMap_cons, List.sum_cons]
    refine JobState.mk.injEq .. ▸ ?_
    refine ⟨rfl, by simp [okCount], rfl, by simp [chapterErrorMessages], by simp [okTokens]⟩

theorem summaryFold_eq :
    ∀ (sos : List UnitOutcome) (job : JobState),
      sos.foldl (fun j u => match u with
        | UnitOutcome.ok t => incrementJobProgress t j
        | UnitOutcome.exn _ => j) job =
        { status := job.status
          chapters_completed := job.chapters_completed + okCount sos
          chapters_total := job.chapters_total
          errors := job.errors
          token_usage := job.token_usage + okTokens sos }
  | [], job => by simp [okCount, okTokens]
  | .ok t :: sos, job => by
    show sos.foldl _ (incrementJobProgress t job) = _
    rw [summaryFold_eq sos (incrementJobProgress t job)]
    simp only [incrementJobProgress]
    refine JobState.mk.injEq .. ▸ ?_
    exact ⟨rfl, by simp [okCount, List.filter_cons] ; omega, rfl, rfl,
      by simp [okTokens, List.map_cons] ; omega⟩
  | .exn msg :: sos, job => by
    show sos.foldl _ job = _
    rw [summaryFold_eq sos job]
    refine JobState.mk.injEq .. ▸ ?_
    exact ⟨rfl, by simp [okCount, List.filter_cons], rfl, rfl, by simp [okTokens, List.map_cons]⟩

/-- Claim C6: when no exception escapes the per-unit and summary-stage
handlers, the batch always ends `completed` (never `failed`), even with a
non-empty error list; every failed chapter unit contributes exactly its own
recorded error, in order, and the run processes every unit of both stages
(the progress counter receives every success of both stages). -/
theorem batch_completes_with_recorded_errors (job : JobState)
    (units : List (Nat × UnitOutcome)) (summaries : List UnitOutcome) :
    (executeBatchGeneration job units summaries).status = JobStatus.completed ∧
    (executeBatchGeneration job units summaries).errors =
      job.errors ++ chapterErrorMessages units ++
      (if 0 < exnCount summaries then
        ["Failed to generate summaries for " ++ toString (exnCount summaries) ++ " chapters"]
       else []) ∧
    (executeBatchGeneration job units summaries).chapters_completed =
      job.chapters_completed + okCount (units.map Prod.snd) + okCount summaries ∧
    (executeBatchGeneration job units summaries).chapters_total = job.chapters_total := by
  simp only [executeBatchGeneration, runSummaryStage]
  rw [runChapterStage_eq units _, summaryFold_eq summaries _]
  by_cases h : 0 < exnCount summaries
  · rw [if_pos h, if_pos h]
    refine ⟨?_, ?_, ?_, ?_⟩ <;> simp [addJobError]
  · rw [if_neg h, if_neg h]
    refine ⟨?_, ?_, ?_, ?_⟩ <;> simp

/-- A one-unit batch in which the chapter and its summary both succeed. -/
def singleUnitJob : JobState :=
  { status := JobStatus.pending
    chapters_completed := 0
    chapters_total := 1
    errors := []
    token_usage := 0 }

def singleUnitRun : JobState :=
  executeBatchGeneration singleUnitJob [(1, UnitOutcome.ok 10)] [UnitOutcome.ok 5]

/-- Claim C1 is violated by the code: `_generate_single_summary` calls
`_increment_job_progress` (whose body unconditionally does
`chapters_completed += 1`) once per successful summary, so after a one-unit
batch in which the chapter and its summary both succeed,
`chapters_completed = 2 > 1 = chapters_total` — breaking the invariant the
spec states and the `GenerationJob` model itself declares as the database
check constraint `chapters_completed <= chapters_total`. -/
theorem chapters_completed_exceeds_total :
    singleUnitRun.chapters_completed = 2 ∧ singleUnitRun.chapters_total = 1 ∧
    ¬ (singleUnitRun.chapters_completed ≤ singleUnitRun.chapters_total) := by
  decide

/-- A booster attempt whose payload decodes to an array containing an
object with no "content" key. -/
def missingKeyAttempt : LLMJsonAttempt :=
  { decoded := Except.ok (Json.arr
      [Json.obj [("booster_type", Json.str "analogy"), ("section_ref", Json.str "s")]])
    tokens_used := 7
    model := "m" }

/-- Claim C2, counterexample: in the booster generator, an element missing
the required "content" key is NOT detected at parse time and does NOT cause
a retry with stronger format instructions — accessing `b['content']` during
validation raises a `KeyError` that escapes the loop, so the outcome is
neither a retry nor a `GenerationError`. -/
theorem booster_missing_key_counterexample :
    (generate_boosters 3 "body" "T" 1 3 [Except.ok missingKeyAttempt]).1 =
      Except.error (PyErr.keyError "content") ∧
    ∀ msg, (generate_boosters 3 "body" "T" 1 3 [Except.ok missingKeyAttempt]).1 ≠
      Except.error (PyErr.genError msg) := by
  have h1 : (generate_boosters 3 "body" "T" 1 3 [Except.ok missingKeyAttempt]).1 =
      Except.error (PyErr.keyError "content") := rfl
  refine ⟨h1, fun msg h => ?_⟩
  rw [h1] at h
  simp at h

theorem summaryGo_guard (maxA : Nat) (enf : Bool) (title : String) (num : Nat)
    (prompt : String) (attempt : Nat) (outcomes : List (Except String LLMJsonAttempt))
    (h : maxA < attempt) :
    summaryGo maxA enf title num prompt attempt outcomes =
      Except.error (PyErr.genError ("Failed to generate summary for Chapter " ++ toString num ++
        " after " ++ toString maxA ++ " attempts")) := by
  conv_lhs => unfold summaryGo
  rw [if_pos h]

theorem summaryGo_nil (maxA : Nat) (enf : Bool) (title : String) (num : Nat)
    (prompt : String) (attempt : Nat) (h : ¬ maxA < attempt) :
    summaryGo maxA enf title num prompt attempt [] =
      Except.error (PyErr.genError ("Failed to generate summary for Chapter " ++ toString num ++
        " after " ++ toString maxA ++ " attempts")) := by
  conv_lhs => unfold summaryGo
  rw [if_neg h]

theorem summaryGo_cons_clientErr (maxA : Nat) (enf : Bool) (title : String) (num : Nat)
    (prompt : String) (attempt : Nat) (e0 : String)
    (rest : List (Except String LLMJsonAttempt)) (h : ¬ maxA < attempt) :
    summaryGo maxA enf title num prompt attempt (Except.error e0 :: rest) =
      if maxA ≤ attempt then Except.error (PyErr.genError e0)
      else summaryGo maxA enf title num prompt (attempt + 1) rest := by
  conv_lhs => unfold summaryGo
  rw [if_neg h]

theorem summaryGo_cons_parseErr (maxA : Nat) (enf : Bool) (title : String) (num : Nat)
    (prompt : String) (attempt : Nat) (r : LLMJsonAttempt)
    (rest : List (Except String LLMJsonAttempt)) (pe : ParseErr) (h : ¬ maxA < attempt)
    (hp : parse_takeaways_json r.decoded = Except.error pe) :
    summaryGo maxA enf title num prompt attempt (Except.ok r :: rest) =
      if attempt < maxA then
        summaryGo maxA enf title num (addJsonFormatEmphasisSummary prompt) (attempt + 1) rest
      else
        Except.error (PyErr.genError ("Failed to parse summary JSON after " ++
          toString maxA ++ " attempts")) := by
  conv_lhs => unfold summaryGo
  rw [if_neg h]
  show (match parse_takeaways_json r.decoded with
    | Except.error _ =>
      if attempt < maxA then
        summaryGo maxA enf title num (addJsonFormatEmphasisSummary prompt) (attempt + 1) rest
      else
        Except.error (PyErr.genError ("Failed to parse summary JSON after " ++
          toString maxA ++ " attempts"))
    | Except.ok takeaways =>
      let vr := validate_summary takeaways 3 5
      if enf = true ∧ ¬ vr.valid = true ∧ attempt < maxA then
        summaryGo maxA enf title num (addValidationEmphasisSummary prompt vr) (attempt + 1) rest
      else
        Except.ok { takeaways := takeaways
                    chapter_number := num
                    chapter_title := title
                    tokens_used := r.tokens_used
                    model_used := r.model
                    generation_attempts := attempt
                    validation_passed := vr.valid }) = _
  rw [hp]

theorem summaryGo_cons_parseOk (maxA : Nat) (enf : Bool) (title : String) (num : Nat)
    (prompt : String) (attempt : Nat) (r : LLMJsonAttempt)
    (rest : List (Except String LLMJsonAttempt)) (takeaways : List String)
    (h : ¬ maxA < attempt) (hp : parse_takeaways_json r.decoded = Except.ok takeaways) :
    summaryGo maxA enf title num prompt attempt (Except.ok r :: rest) =
      (if enf = true ∧ ¬ (validate_summary takeaways 3 5).valid = true ∧ attempt < maxA then
        summaryGo maxA enf title num
          (addValidationEmphasisSummary prompt (validate_summary takeaways 3 5)) (attempt + 1)
          rest
      else
        Except.ok { takeaways := takeaways
                    chapter_number := num
                    chapter_title := title
                    tokens_used := r.tokens_used
                    model_used := r.model
                    generation_attempts := attempt
                    validation_passed := (validate_summary takeaways 3 5).valid }) := by
  conv_lhs => unfold summaryGo
  rw [if_neg h]
  show (match parse_takeaways_json r.decoded with
    | Except.error _ =>
      if attempt < maxA then
        summaryGo maxA enf title num (addJsonFormatEmphasisSummary prompt) (attempt + 1) rest
      else
        Except.error (PyErr.genError ("Failed to parse summary JSON after " ++
          toString maxA ++ " attempts"))
    | Except.ok takeaways =>
      let vr := validate_summary takeaways 3 5
      if enf = true ∧ ¬ vr.valid = true ∧ attempt < maxA then
        summaryGo maxA enf title num (addValidationEmphasisSummary prompt vr) (attempt + 1) rest
      else
        Except.ok { takeaways := takeaways
                    chapter_number := num
                    chapter_title := title
                    tokens_used := r.tokens_used
                    model_used := r.model
                    generation_attempts := attempt
                    validation_passed := vr.valid }) = _
  rw [hp]

theorem summaryGo_error_genError :
    ∀ (outcomes : List (Except String LLMJsonAttempt)) (maxA : Nat) (enf : Bool)
      (title : String) (num : Nat) (prompt : String) (attempt : Nat) (e : PyErr),
      summaryGo maxA enf title num prompt attempt outcomes = Except.error e →
      ∃ m, e = PyErr.genError m
  | outcomes, maxA, enf, title, num, prompt, attempt, e, h => by
    by_cases hg : maxA < attempt
    · rw [summaryGo_guard maxA enf title num prompt attempt outcomes hg] at h
      exact ⟨_, (Except.error.inj h).symm⟩
    · match outcomes with
      | [] =>
        rw [summaryGo_nil maxA enf title num prompt attempt hg] at h
        exact ⟨_, (Except.error.inj h).symm⟩
      | Except.error e0 :: rest =>
        rw [summaryGo_cons_clientErr maxA enf title num prompt attempt e0 rest hg] at h
        split at h
        · exact ⟨_, (Except.error.inj h).symm⟩
        · exact summaryGo_error_genError rest maxA enf title num prompt (attempt + 1) e h
      | Except.ok r :: rest =>
        rcases hp : parse_takeaways_json r.decoded with pe | takeaways
        · rw [summaryGo_cons_parseErr maxA enf title num prompt attempt r rest pe hg hp] at h
          split at h
          · exact summaryGo_error_genError rest maxA enf title num _ (attempt + 1) e h
          · exact ⟨_, (Except.error.inj h).symm⟩
        · rw [summaryGo_cons_parseOk maxA enf title num prompt attempt r rest takeaways hg hp]
            at h
          split at h
          · exact summaryGo_error_genError rest maxA enf title num _ (attempt + 1) e h
          · simp at h

theorem quizGo_guard (maxA : Nat) (enf : Bool) (nq : Nat) (title : String) (num : Nat)
    (prompt : String) (attempt : Nat) (outcomes : List (Except String LLMJsonAttempt))
    (h : maxA < attempt) :
    quizGo maxA enf nq title num prompt attempt outcomes =
      Except.error (PyErr.genError ("Failed to generate quiz for Chapter " ++ toString num ++
        " after " ++ toString maxA ++ " attempts")) := by
  conv_lhs => unfold quizGo
  rw [if_pos h]

theorem quizGo_nil (maxA : Nat) (enf : Bool) (nq : Nat) (title : String) (num : Nat)
    (prompt : String) (attempt : Nat) (h : ¬ maxA < attempt) :
    quizGo maxA enf nq title num prompt attempt [] =
      Except.error (PyErr.genError ("Failed to generate quiz for Chapter " ++ toString num ++
        " after " ++ toString maxA ++ " attempts")) := by
  conv_lhs => unfold quizGo
  rw [if_neg h]

theorem quizGo_cons_clientErr (maxA : Nat) (enf : Bool) (nq : Nat) (title : String)
    (num : Nat) (prompt : String) (attempt : Nat) (e0 : String)
    (rest : List (Except String LLMJsonAttempt)) (h : ¬ maxA < attempt) :
    quizGo maxA enf nq title num prompt attempt (Except.error e0 :: rest) =
      if maxA ≤ attempt then Except.error (PyErr.genError e0)
      else quizGo maxA enf nq title num prompt (attempt + 1) rest := by
  conv_lhs => unfold quizGo
  rw [if_neg h]

theorem quizGo_cons_parseErr (maxA : Nat) (enf : Bool) (nq : Nat) (title : String)
    (num : Nat) (prompt : String) (attempt : Nat) (r : LLMJsonAttempt)
    (rest : List (Except String LLMJsonAttempt)) (pe : ParseErr) (h : ¬ maxA < attempt)
    (hp : parse_quiz_json r.decoded = Except.error pe) :
    quizGo maxA enf nq title num prompt attempt (Except.ok r :: rest) =
      if attempt < maxA then
        quizGo maxA enf nq title num (addJsonFormatEmphasisQuiz prompt) (attempt + 1) rest
      else
        Except.error (PyErr.genError ("Failed to parse quiz JSON after " ++
          toString maxA ++ " attempts")) := by
  conv_lhs => unfold quizGo
  rw [if_neg h]
  show (match parse_quiz_json r.decoded with
    | Except.error _ =>
      if attempt < maxA then
        quizGo maxA enf nq title num (addJsonFormatEmphasisQuiz prompt) (attempt + 1) rest
      else
        Except.error (PyErr.genError ("Failed to parse quiz JSON after " ++
          toString maxA ++ " attempts"))
    | Except.ok questions =>
      match questionsChecked questions with
      | Except.error e => Except.error e
      | Except.ok typed =>
        let vr := validate_quiz typed nq nq
        if enf = true ∧ ¬ vr.valid = true ∧ attempt < maxA then
          quizGo maxA enf nq title num (addValidationEmphasisQuiz prompt nq vr) (attempt + 1)
            rest
        else
          Except.ok { questions := questions
                      chapter_number := num
                      chapter_title := title
                      tokens_used := r.tokens_used
                      model_used := r.model
                      generation_attempts := attempt
                      validation_passed := vr.valid }) = _
  rw [hp]

theorem quizGo_cons_typedErr (maxA : Nat) (enf : Bool) (nq : Nat) (title : String)
    (num : Nat) (prompt : String) (attempt : Nat) (r : LLMJsonAttempt)
    (rest : List (Except String LLMJsonAttempt)) (questions : List Json) (e : PyErr)
    (h : ¬ maxA < attempt) (hp : parse_quiz_json r.decoded = Except.ok questions)
    (hc : questionsChecked questions = Except.error e) :
    quizGo maxA enf nq title num prompt attempt (Except.ok r :: rest) = Except.error e := by
  conv_lhs => unfold quizGo
  rw [if_neg h]
  show (match parse_quiz_json r.decoded with
    | Except.error _ =>
      if attempt < maxA then
        quizGo maxA enf nq title num (addJsonFormatEmphasisQuiz prompt) (attempt + 1) rest
      else
        Except.error (PyErr.genError ("Failed to parse quiz JSON after " ++
          toString maxA ++ " attempts"))
    | Except.ok questions =>
      match questionsChecked questions with
      | Except.error e => Except.error e
      | Except.ok typed =>
        let vr := validate_quiz typed nq nq
        if enf = true ∧ ¬ vr.valid = true ∧ attempt < maxA then
          quizGo maxA enf nq title num (addValidationEmphasisQuiz prompt nq vr) (attempt + 1)
            rest
        else
          Except.ok { questions := questions
                      chapter_number := num
                      chapter_title := title
                      tokens_used := r.tokens_used
                      model_used := r.model
                      generation_attempts := attempt
                      validation_passed := vr.valid }) = _
  rw [hp]
  show (match questionsChecked questions with
    | Except.error e => Except.error e
    | Except.ok typed =>
      let vr := validate_quiz typed nq nq
      if enf = true ∧ ¬ vr.valid = true ∧ attempt < maxA then
        quizGo maxA enf nq title num (addValidationEmphasisQuiz prompt nq vr) (attempt + 1)
          rest
      else
        Except.ok { questions := questions
                    chapter_number := num
                    chapter_title := title
                    tokens_used := r.tokens_used
                    model_used := r.model
                    generation_attempts := attempt
                    validation_passed := vr.valid }) = _
  rw [hc]

theorem quizGo_cons_typedOk (maxA : Nat) (enf : Bool) (nq : Nat) (title : String)
    (num : Nat) (prompt : String) (attempt : Nat) (r : LLMJsonAttempt)
    (rest : List (Except String LLMJsonAttempt)) (questions : List Json)
    (typed : List QuizQuestion) (h : ¬ maxA < attempt)
    (hp : parse_quiz_json r.decoded = Except.ok questions)
    (hc : questionsChecked questions = Except.ok typed) :
    quizGo maxA enf nq title num prompt attempt (Except.ok r :: rest) =
      (if enf = true ∧ ¬ (validate_quiz typed nq nq).valid = true ∧ attempt < maxA then
        quizGo maxA enf nq title num
          (addValidationEmphasisQuiz prompt nq (validate_quiz typed nq nq)) (attempt + 1) rest
      else
        Except.ok { questions := questions
                    chapter_number := num
                    chapter_title := title
                    tokens_used := r.tokens_used
                    model_used := r.model
                    generation_attempts := attempt
                    validation_passed := (validate_quiz typed nq nq).valid }) := by
  conv_lhs => unfold quizGo
  rw [if_neg h]
  show (match parse_quiz_json r.decoded with
    | Except.error _ =>
      if attempt < maxA then
        quizGo maxA enf nq title num (addJsonFormatEmphasisQuiz prompt) (attempt + 1) rest
      else
        Except.error (PyErr.genError ("Failed to parse quiz JSON after " ++
          toString maxA ++ " attempts"))
    | Except.ok questions =>
      match questionsChecked questions with
      | Except.error e => Except.error e
      | Except.ok typed =>
        let vr := validate_quiz typed nq nq
        if enf = true ∧ ¬ vr.valid = true ∧ attempt < maxA then
          quizGo maxA enf nq title num (addValidationEmphasisQuiz prompt nq vr) (attempt + 1)
            rest
        else
          Except.ok { questions := questions
                      chapter_number := num
                      chapter_title := title
                      tokens_used := r.tokens_used
                      model_used := r.model
                      generation_attempts := attempt
                      validation_passed := vr.valid }) = _
  rw [hp]
  show (match questionsChecked questions with
    | Except.error e => Except.error e
    | Except.ok typed =>
      let vr := validate_quiz typed nq nq
      if enf = true ∧ ¬ vr.valid = true ∧ attempt < maxA then
        quizGo maxA enf nq title num (addValidationEmphasisQuiz prompt nq vr) (attempt + 1)
          rest
      else
        Except.ok { questions := questions
                    chapter_number := num
                    chapter_title := title
                    tokens_used := r.tokens_used
                    model_used := r.model
                    generation_attempts := attempt
                    validation_passed := vr.valid }) = _
  rw [hc]

/-- The prompt the booster loop builds in every iteration: a pure function
of the loop's arguments, never mutated between attempts. -/
def boosterAttemptPrompt (cc ct : String) (nb : Nat) : String :=
  get_booster_generation_prompt cc ct
    ((extractSections cc).headD (⟨cc.data.take 1000⟩ : String)) "analogy" nb

theorem boosterGo_guard (maxA : Nat) (cc ct : String) (num nb attempt : Nat)
    (outcomes : List (Except String LLMJsonAttempt)) (h : maxA < attempt) :
    boosterGo maxA cc ct num nb attempt outcomes =
      (Except.error (PyErr.genError ("Failed to generate boosters for Chapter " ++
        toString num ++ " after " ++ toString maxA ++ " attempts")), []) := by
  conv_lhs => unfold boosterGo
  rw [if_pos h]

theorem boosterGo_nil (maxA : Nat) (cc ct : String) (num nb attempt : Nat)
    (h : ¬ maxA < attempt) :
    boosterGo maxA cc ct num nb attempt [] =
      (Except.error (PyErr.genError ("Failed to generate boosters for Chapter " ++
        toString num ++ " after " ++ toString maxA ++ " attempts")), []) := by
  conv_lhs => unfold boosterGo
  rw [if_neg h]

theorem boosterGo_cons_clientErr (maxA : Nat) (cc ct : String) (num nb attempt : Nat)
    (e0 : String) (rest : List (Except String LLMJsonAttempt)) (h : ¬ maxA < attempt) :
    boosterGo maxA cc ct num nb attempt (Except.error e0 :: rest) =
      if maxA ≤ attempt then
        (Except.error (PyErr.genError e0), [boosterAttemptPrompt cc ct nb])
      else
        ((boosterGo maxA cc ct num nb (attempt + 1) rest).1,
          boosterAttemptPrompt cc ct nb :: (boosterGo maxA cc ct num nb (attempt + 1) rest).2)
        := by
  conv_lhs => unfold boosterGo
  rw [if_neg h]
  rfl

theorem boosterGo_cons_parseErr (maxA : Nat) (cc ct : String) (num nb attempt : Nat)
    (r : LLMJsonAttempt) (rest : List (Except String LLMJsonAttempt)) (pe : ParseErr)
    (h : ¬ maxA < attempt) (hp : parse_boosters_json r.decoded = Except.error pe) :
    boosterGo maxA cc ct num nb attempt (Except.ok r :: rest) =
      if maxA ≤ attempt then
        (Except.error (PyErr.genError ("Failed to parse booster JSON after " ++
          toString maxA ++ " attempts")), [boosterAttemptPrompt cc ct nb])
      else
        ((boosterGo maxA cc ct num nb (attempt + 1) rest).1,
          boosterAttemptPrompt cc ct nb :: (boosterGo maxA cc ct num nb (attempt + 1) rest).2)
        := by
  conv_lhs => unfold boosterGo
  rw [if_neg h]
  show (match parse_boosters_json r.decoded with
    | Except.error _ =>
      if maxA ≤ attempt then
        (Except.error (PyErr.genError ("Failed to parse booster JSON after " ++
          toString maxA ++ " attempts")), [boosterAttemptPrompt cc ct nb])
      else
        ((boosterGo maxA cc ct num nb (attempt + 1) rest).1,
          boosterAttemptPrompt cc ct nb :: (boosterGo maxA cc ct num nb (attempt + 1) rest).2)
    | Except.ok boosters =>
      match boosterAllValid boosters with
      | Except.error e => (Except.error e, [boosterAttemptPrompt cc ct nb])
      | Except.ok all_valid =>
        (Except.ok { boosters := boosters
                     chapter_number := num
                     chapter_title := ct
                     tokens_used := r.tokens_used
                     model_used := r.model
                     generation_attempts := attempt
                     validation_passed := all_valid }, [boosterAttemptPrompt cc ct nb])) = _
  rw [hp]

theorem boosterGo_cons_parseOk (maxA : Nat) (cc ct : String) (num nb attempt : Nat)
    (r : LLMJsonAttempt) (rest : List (Except String LLMJsonAttempt)) (bs : List Json)
    (h : ¬ maxA < attempt) (hp : parse_boosters_json r.decoded = Except.ok bs) :
    boosterGo maxA cc ct num nb attempt (Except.ok r :: rest) =
      (match boosterAllValid bs with
      | Except.error e => (Except.error e, [boosterAttemptPrompt cc ct nb])
      | Except.ok all_valid =>
        (Except.ok { boosters := bs
                     chapter_number := num
                     chapter_title := ct
                     tokens_used := r.tokens_used
                     model_used := r.model
                     generation_attempts := attempt
                     validation_passed := all_valid }, [boosterAttemptPrompt cc ct nb])) := by
  conv_lhs => unfold boosterGo
  rw [if_neg h]
  show (match parse_boosters_json r.decoded with
    | Except.error _ =>
      if maxA ≤ attempt then
        (Except.error (PyErr.genError ("Failed to parse booster JSON after " ++
          toString maxA ++ " attempts")), [boosterAttemptPrompt cc ct nb])
      else
        ((boosterGo maxA cc ct num nb (attempt + 1) rest).1,
          boosterAttemptPrompt cc ct nb :: (boosterGo maxA cc ct num nb (attempt + 1) rest).2)
    | Except.ok boosters =>
      match boosterAllValid boosters with
      | Except.error e => (Except.error e, [boosterAttemptPrompt cc ct nb])
      | Except.ok all_valid =>
        (Except.ok { boosters := boosters
                     chapter_number := num
                     chapter_title := ct
                     tokens_used := r.tokens_used
                     model_used := r.model
                     generation_attempts := attempt
                     validation_passed := all_valid }, [boosterAttemptPrompt cc ct nb])) = _
  rw [hp]

theorem boosterGo_prompts_const :
    ∀ (outcomes : List (Except String LLMJsonAttempt)) (maxA : Nat) (cc ct : String)
      (num nb attempt : Nat) (p : String),
      p ∈ (boosterGo maxA cc ct num nb attempt outcomes).2 →
      p = boosterAttemptPrompt cc ct nb
  | outcomes, maxA, cc, ct, num, nb, attempt, p, hp => by
    by_cases hg : maxA < attempt
    · rw [boosterGo_guard maxA cc ct num nb attempt outcomes hg] at hp
      simp at hp
    · match outcomes with
      | [] =>
        rw [boosterGo_nil maxA cc ct num nb attempt hg] at hp
        simp at hp
      | Except.error e0 :: rest =>
        rw [boosterGo_cons_clientErr maxA cc ct num nb attempt e0 rest hg] at hp
        split at hp
        · simp only [List.mem_singleton] at hp
          exact hp
        · simp only [List.mem_cons] at hp
          rcases hp with rfl | hp
          · rfl
          · exact boosterGo_prompts_const rest maxA cc ct num nb (attempt + 1) p hp
      | Except.ok r :: rest =>
        rcases hq : parse_boosters_json r.decoded with pe | bs
        · rw [boosterGo_cons_parseErr maxA cc ct num nb attempt r rest pe hg hq] at hp
          split at hp
          · simp only [List.mem_singleton] at hp
            exact hp
          · simp only [List.mem_cons] at hp
            rcases hp with rfl | hp
            · rfl
            · exact boosterGo_prompts_const rest maxA cc ct num nb (attempt + 1) p hp
        · rw [boosterGo_cons_parseOk maxA cc ct num nb attempt r rest bs hg hq] at hp
          rcases hv : boosterAllValid bs with e1 | b <;> rw [hv] at hp <;>
            simp only [List.mem_singleton] at hp <;> exact hp

theorem boosterAllValid_missing_content (fields : List (String × Json)) (bs : List Json)
    (h : fields.lookup "content" = none) :
    boosterAllValid (Json.obj fields :: bs) = Except.error (PyErr.keyError "content") := by
  have hk : jsonGetKey (Json.obj fields) "content" =
      Except.error (PyErr.keyError "content") := by
    show (match fields.lookup "content" with
      | some v => Except.ok v
      | none => Except.error (PyErr.keyError "content")) =
      Except.error (PyErr.keyError "content")
    rw [h]
  show (match jsonGetKey (Json.obj fields) "content" with
    | Except.error e => Except.error e
    | Except.ok cv =>
      match cv with
      | Json.str c =>
        (match jsonGetKey (Json.obj fields) "booster_type" with
        | Except.error e => Except.error e
        | Except.ok tv =>
          let t := match tv with | Json.str s => s | _ => "<non-string booster_type>"
          if (validate_learning_booster c t 100 300).valid = true then boosterAllValid bs
          else Except.ok false)
      | _ => Except.error (PyErr.typeError "booster content is not a string")) =
    Except.error (PyErr.keyError "content")
  rw [hk]

/-- Claim C2, amended: in the summary and quiz generators every parse
failure retries with the JSON-format emphasis appended to the prompt while
attempts remain and raises `GenerationError` once the attempt cap is
exhausted, and the summary loop can fail with no exception type other than
`GenerationError`. The quiz loop cannot say the same: its parser checks
only key presence, so a required field that is present but ill-typed (for
example a numeric `options`) makes the validator's first dynamic access
raise a `TypeError` or `AttributeError` that escapes the loop uncaught —
neither a retry nor a `GenerationError`. The booster generator differs
further: it rebuilds an identical prompt from the same arguments on every
attempt (no format instructions are ever appended), its parser checks no
element keys, and a booster element missing the required "content" key
escapes as a `KeyError` raised during validation. -/
theorem parse_failure_retry_behavior :
    (∀ (maxA : Nat) (enf : Bool) (title : String) (num : Nat) (prompt : String)
        (attempt : Nat) (r : LLMJsonAttempt) (rest : List (Except String LLMJsonAttempt))
        (pe : ParseErr), attempt < maxA → parse_takeaways_json r.decoded = Except.error pe →
        summaryGo maxA enf title num prompt attempt (Except.ok r :: rest) =
          summaryGo maxA enf title num (addJsonFormatEmphasisSummary prompt) (attempt + 1)
            rest) ∧
    (∀ (maxA : Nat) (enf : Bool) (title : String) (num : Nat) (prompt : String)
        (r : LLMJsonAttempt) (rest : List (Except String LLMJsonAttempt)) (pe : ParseErr),
        parse_takeaways_json r.decoded = Except.error pe →
        summaryGo maxA enf title num prompt maxA (Except.ok r :: rest) =
          Except.error (PyErr.genError ("Failed to parse summary JSON after " ++
            toString maxA ++ " attempts"))) ∧
    (∀ (maxA : Nat) (enf : Bool) (nq : Nat) (title : String) (num : Nat) (prompt : String)
        (attempt : Nat) (r : LLMJsonAttempt) (rest : List (Except String LLMJsonAttempt))
        (pe : ParseErr), attempt < maxA → parse_quiz_json r.decoded = Except.error pe →
        quizGo maxA enf nq title num prompt attempt (Except.ok r :: rest) =
          quizGo maxA enf nq title num (addJsonFormatEmphasisQuiz prompt) (attempt + 1)
            rest) ∧
    (∀ (maxA : Nat) (enf : Bool) (nq : Nat) (title : String) (num : Nat) (prompt : String)
        (r : LLMJsonAttempt) (rest : List (Except String LLMJsonAttempt)) (pe : ParseErr),
        parse_quiz_json r.decoded = Except.error pe →
        quizGo maxA enf nq title num prompt maxA (Except.ok r :: rest) =
          Except.error (PyErr.genError ("Failed to parse quiz JSON after " ++
            toString maxA ++ " attempts"))) ∧
    (∀ (outcomes : List (Except String LLMJsonAttempt)) (maxA : Nat) (enf : Bool)
        (title : String) (num : Nat) (prompt : String) (attempt : Nat) (e : PyErr),
        summaryGo maxA enf title num prompt attempt outcomes = Except.error e →
        ∃ m, e = PyErr.genError m) ∧
    (∀ (maxA : Nat) (enf : Bool) (nq : Nat) (title : String) (num : Nat) (prompt : String)
        (attempt : Nat) (r : LLMJsonAttempt) (rest : List (Except String LLMJsonAttempt))
        (questions : List Json) (e : PyErr),
        ¬ maxA < attempt → parse_quiz_json r.decoded = Except.ok questions →
        questionsChecked questions = Except.error e →
        quizGo maxA enf nq title num prompt attempt (Except.ok r :: rest) =
          Except.error e) ∧
    (∀ (outcomes : List (Except String LLMJsonAttempt)) (maxA : Nat) (cc ct : String)
        (num nb attempt : Nat) (p : String),
        p ∈ (boosterGo maxA cc ct num nb attempt outcomes).2 →
        p = boosterAttemptPrompt cc ct nb) ∧
    (∀ (fields : List (String × Json)) (bs : List Json),
        fields.lookup "content" = none →
        boosterAllValid (Json.obj fields :: bs) =
          Except.error (PyErr.keyError "content")) ∧
    (∀ (maxA : Nat) (cc ct : String) (num nb attempt : Nat) (r : LLMJsonAttempt)
        (rest : List (Except String LLMJsonAttempt)) (bs : List Json) (e : PyErr),
        attempt ≤ maxA → parse_boosters_json r.decoded = Except.ok bs →
        boosterAllValid bs = Except.error e →
        (boosterGo maxA cc ct num nb attempt (Except.ok r :: rest)).1 = Except.error e) := by
  refine ⟨?_, ?_, ?_, ?_, summaryGo_error_genError, quizGo_cons_typedErr,
    boosterGo_prompts_const, boosterAllValid_missing_content, ?_⟩
  · intro maxA enf title num prompt attempt r rest pe hlt hp
    rw [summaryGo_cons_parseErr maxA enf title num prompt attempt r rest pe (by omega) hp,
      if_pos hlt]
  · intro maxA enf title num prompt r rest pe hp
    rw [summaryGo_cons_parseErr maxA enf title num prompt maxA r rest pe (by omega) hp,
      if_neg (by omega)]
  · intro maxA enf nq title num prompt attempt r rest pe hlt hp
    rw [quizGo_cons_parseErr maxA enf nq title num prompt attempt r rest pe (by omega) hp,
      if_pos hlt]
  · intro maxA enf nq title num prompt r rest pe hp
    rw [quizGo_cons_parseErr maxA enf nq title num prompt maxA r rest pe (by omega) hp,
      if_neg (by omega)]
  · intro maxA cc ct num nb attempt r rest bs e hle hp hv
    rw [boosterGo_cons_parseOk maxA cc ct num nb attempt r rest bs (by omega) hp, hv]

/-- An attempt whose payload fails to decode as JSON. -/
def badJsonAttempt : LLMJsonAttempt :=
  { decoded := Except.error "Expecting value: line 1 column 1 (char 0)"
    tokens_used := 3
    model := "m" }

/-- An attempt whose payload parses (every required key present) but whose
`options` field is a number, so `len(options)` raises `TypeError` inside
`validate_quiz`. -/
def illTypedQuizAttempt : LLMJsonAttempt :=
  { decoded := Except.ok (Json.arr [Json.obj [("question_text", Json.str "Q?"),
      ("options", Json.num 4), ("correct_index", Json.num 0)]])
    tokens_used := 3
    model := "m" }

theorem parse_failure_retry_behavior_witness :
    (summaryGo 3 true "T" 1 "P" 1 (Except.ok badJsonAttempt :: []) =
      summaryGo 3 true "T" 1 (addJsonFormatEmphasisSummary "P") 2 []) ∧
    (summaryGo 3 true "T" 1 "P" 3 (Except.ok badJsonAttempt :: []) =
      Except.error (PyErr.genError ("Failed to parse summary JSON after " ++ toString 3 ++
        " attempts"))) ∧
    (quizGo 3 true 5 "T" 1 "P" 1 (Except.ok badJsonAttempt :: []) =
      quizGo 3 true 5 "T" 1 (addJsonFormatEmphasisQuiz "P") 2 []) ∧
    (quizGo 3 true 5 "T" 1 "P" 3 (Except.ok badJsonAttempt :: []) =
      Except.error (PyErr.genError ("Failed to parse quiz JSON after " ++ toString 3 ++
        " attempts"))) ∧
    (quizGo 3 true 5 "T" 1 "P" 1 (Except.ok illTypedQuizAttempt :: []) =
      Except.error (PyErr.typeError "object has no len()")) ∧
    (boosterAllValid [Json.obj [("booster_type", Json.str "analogy")]] =
      Except.error (PyErr.keyError "content")) ∧
    ((boosterGo 3 "body" "T" 1 3 1 (Except.ok missingKeyAttempt :: [])).1 =
      Except.error (PyErr.keyError "content")) :=
  ⟨parse_failure_retry_behavior.1 3 true "T" 1 "P" 1 badJsonAttempt []
     (ParseErr.jsonDecode "Expecting value: line 1 column 1 (char 0)") (by omega) rfl,
   parse_failure_retry_behavior.2.1 3 true "T" 1 "P" badJsonAttempt []
     (ParseErr.jsonDecode "Expecting value: line 1 column 1 (char 0)") rfl,
   parse_failure_retry_behavior.2.2.1 3 true 5 "T" 1 "P" 1 badJsonAttempt []
     (ParseErr.jsonDecode "Expecting value: line 1 column 1 (char 0)") (by omega) rfl,
   parse_failure_retry_behavior.2.2.2.1 3 true 5 "T" 1 "P" badJsonAttempt []
     (ParseErr.jsonDecode "Expecting value: line 1 column 1 (char 0)") rfl,
   parse_failure_retry_behavior.2.2.2.2.2.1 3 true 5 "T" 1 "P" 1 illTypedQuizAttempt []
     [Json.obj [("question_text", Json.str "Q?"), ("options", Json.num 4),
       ("correct_index", Json.num 0)]]
     (PyErr.typeError "object has no len()") (by omega) rfl rfl,
   parse_failure_retry_behavior.2.2.2.2.2.2.2.1
     [("booster_type", Json.str "analogy")] [] rfl,
   parse_failure_retry_behavior.2.2.2.2.2.2.2.2 3 "body" "T" 1 3 1 missingKeyAttempt []
     [Json.obj [("booster_type", Json.str "analogy"), ("section_ref", Json.str "s")]]
     (PyErr.keyError "content") (by omega) rfl
     (parse_failure_retry_behavior.2.2.2.2.2.2.2.1
       [("booster_type", Json.str "analogy"), ("section_ref", Json.str "s")] [] rfl)⟩

/-- `n` repetitions of "() ": `n` chapter-split words that the validator
strips to nothing. -/
def parenRun (n : Nat) : List Char := (List.replicate n ['(', ')', ' ']).flatten

theorem parenRun_succ (n : Nat) : parenRun (n + 1) = '(' :: ')' :: ' ' :: parenRun n := by
  simp [parenRun, List.replicate_succ]

theorem mem_parenRun {c : Char} {n : Nat} (h : c ∈ parenRun n) :
    c = '(' ∨ c = ')' ∨ c = ' ' := by
  simp only [parenRun, List.mem_flatten] at h
  obtain ⟨l, hl, hc⟩ := h
  rw [List.eq_of_mem_replicate hl] at hc
  simpa using hc

theorem countTokensGo_parenRun : ∀ n : Nat, countTokensGo (parenRun n) false = n := by
  intro n
  induction n with
  | zero => rfl
  | succ n ih =>
    rw [parenRun_succ]
    show (if ('(' : Char).isWhitespace then _
      else (1 + countTokensGo (')' :: ' ' :: parenRun n) true)) = _
    rw [if_neg (by decide)]
    show 1 + (if (')' : Char).isWhitespace then _
      else ((if true = true then 0 else 1) + countTokensGo (' ' :: parenRun n) true)) = n + 1
    rw [if_neg (by decide), if_pos rfl]
    show 1 + (0 + (if (' ' : Char).isWhitespace then countTokensGo (parenRun n) false else _))
      = n + 1
    rw [if_pos (by decide), ih]
    omega

theorem countTokensGo_all_space : ∀ n : Nat, countTokensGo (List.replicate n ' ') false = 0 := by
  intro n
  induction n with
  | zero => rfl
  | succ n ih =>
    rw [List.replicate_succ]
    show (if (' ' : Char).isWhitespace then countTokensGo (List.replicate n ' ') false else _)
      = 0
    rw [if_pos (by decide), ih]

theorem parenRun_filter (n : Nat) :
    (parenRun n).filter (fun c => ¬ isMdSpecial c) = List.replicate n ' ' := by
  induction n with
  | zero => rfl
  | succ n ih =>
    rw [parenRun_succ, List.replicate_succ]
    show List.filter _ ('(' :: ')' :: ' ' :: parenRun n) = _
    rw [List.filter_cons, List.filter_cons, List.filter_cons]
    simp only [ih]
    simp [isMdSpecial]

/-- A document of 800 "()" tokens: the chapter generator counts 800 words,
the validator counts 0. -/
def parenDoc : String := ⟨parenRun 800⟩

def parenResult : GenerationResult :=
  { content := parenDoc, model := "m", tokens_used := 11, finish_reason := "end_turn" }

theorem countWordsChapter_parenDoc : countWordsChapter parenDoc = 800 :=
  countTokensGo_parenRun 800

theorem countWordsValidator_parenDoc : countWordsValidator parenDoc = 0 := by
  unfold countWordsValidator
  have hnotick : ∀ c ∈ parenDoc.data, c ≠ '`' := by
    intro c hc
    rcases mem_parenRun hc with rfl | rfl | rfl <;> decide
  rw [stripFenced_id _ hnotick, stripInline_id _ hnotick]
  show countTokens ((parenRun 800).filter (fun c => ¬ isMdSpecial c)) = 0
  rw [parenRun_filter 800]
  exact countTokensGo_all_space 800

/-- Claim C10: the chapter generator's plain whitespace word count and the
validator's stripped word count agree on text free of backticks and
markdown punctuation, but differ in general — "()" counts as 1 word for the
generator and 0 for the validator — so a chapter of 800 "()" tokens is
accepted by the generator with `validation_passed = true` while
`validate_chapter` on the same content reports a word-count error. -/
theorem word_count_refinement :
    (∀ s : String, (∀ c ∈ s.data, c ≠ '`' ∧ isMdSpecial c = false) →
        countWordsChapter s = countWordsValidator s) ∧
    (countWordsChapter "()" = 1 ∧ countWordsValidator "()" = 0) ∧
    (generate_chapter 3 true 2 "T" 1000 "P" [Except.ok parenResult] =
      Except.ok { content := parenDoc
                  chapter_number := 2
                  chapter_title := "T"
                  word_count := countWordsChapter parenDoc
                  tokens_used := 11
                  model_used := "m"
                  generation_attempts := 1
                  validation_passed := true } ∧
     "Word count too low: 0 (minimum 800)" ∈ (validate_chapter parenDoc).errors) := by
  refine ⟨?_, by decide, ?_, ?_⟩
  · intro s h
    symm
    unfold countWordsValidator
    rw [stripFenced_id _ (fun c hc => (h c hc).1), stripInline_id _ (fun c hc => (h c hc).1)]
    rw [List.filter_eq_self.mpr (fun c hc => by simp [(h c hc).2])]
    rfl
  · have hv : isWordCountValid (countWordsChapter parenResult.content) = true := by
      show isWordCountValid (countWordsChapter parenDoc) = true
      rw [countWordsChapter_parenDoc]
      decide
    exact generateChapterGo_good_after_bad [] 3 2 1000 1 "T" "P" parenResult []
      (by simp) (by simp) hv
  · show _ ∈ validateMarkdownSyntaxErrors parenDoc ++ validateStructureErrors parenDoc ++
      validateWordCountErrors ((countWordsValidator parenDoc : Int)) ++
      validateReadingTimeErrors (calculateReadingTime (countWordsValidator parenDoc))
    apply List.mem_append_left
    apply List.mem_append_right
    rw [countWordsValidator_parenDoc]
    decide

theorem word_count_refinement_witness :
    countWordsChapter "hello world" = countWordsValidator "hello world" :=
  word_count_refinement.1 "hello world" (by decide)

end BookGen
